import Mathlib

/-!
Shallow embedding of the vocabulary-testing backend (Django app `api`).

Data model is translated from src/api/models.py, the operations from
src/api/views.py and src/api/serializers.py.  Database tables are lists of
records; Django queryset `filter` / `exclude` / `values_list` become list
operations with Bool predicates, and foreign-key joins (`session__student`,
`vocabulary__category_id`) become existential scans over the joined table.
Machine integers are Nat (primary keys) and Int (counter columns); Python
`round(x, 2)` is modelled over ℚ with round-half-to-even.  Randomness
(`random.choice`, `random.sample`, `random.shuffle`) is modelled by explicit
seed parameters: an index picks the chosen element, two indices pick the
2-sample without replacement, and a residue mod 6 picks the order of a
3-element shuffle, so every possible random outcome corresponds to some seed
value and all theorems quantify over the seeds.
-/

/-- Teacher account (models.py `User`): only the fields the core reads. -/
structure User where
  id : Nat
  full_name : String
deriving DecidableEq, Repr

/-- models.py `ClassRoom`: a classroom owned by one teacher. -/
structure ClassRoom where
  id : Nat
  name : String
  teacher_id : Nat
deriving DecidableEq, Repr

/-- models.py `Student`: belongs to one classroom. -/
structure Student where
  id : Nat
  full_name : String
  class_room_id : Nat
deriving DecidableEq, Repr

/-- models.py `Vocabulary`: a word with an optional image, owned by a
teacher, in one category.  The image is the opaque URL string the view
would build from the file field (`None` when no image). -/
structure Vocabulary where
  id : Nat
  word : String
  image : Option String
  category_id : Nat
  teacher_id : Nat
deriving DecidableEq, Repr

/-- models.py `TestSession`: per (student, category) running counters.
`total_questions` and `correct_answers` are Django IntegerFields, hence Int. -/
structure TestSession where
  id : Nat
  student_id : Nat
  category_id : Nat
  total_questions : Int
  correct_answers : Int
deriving DecidableEq, Repr

/-- models.py `Result`: one answered question, referencing a session and a
vocabulary item.  Note the model has exactly these fields: in particular it
has NO direct `student` field (the student is reached through `session`). -/
structure Result where
  id : Nat
  session_id : Nat
  vocabulary_id : Nat
  is_correct : Bool
deriving DecidableEq, Repr

/-- The persistent store: one list per table, plus fresh-id counters for the
two tables the core inserts into. -/
structure DB where
  classrooms : List ClassRoom
  students : List Student
  vocabs : List Vocabulary
  sessions : List TestSession
  results : List Result
  nextSessionId : Nat
  nextResultId : Nat
deriving DecidableEq, Repr

/-- Python `round` to an integer: round half to even.  Used to model
`round(x, 2)`; float representation effects are not modelled, the
computation is exact over ℚ. -/
def roundHalfEven (q : ℚ) : ℤ :=
  let f := ⌊q⌋
  if q - f < 1/2 then f
  else if q - f > 1/2 then f + 1
  else if f % 2 = 0 then f else f + 1

/-- Rounding to two decimal places, Python `round(x, 2)` over ℚ. -/
def round2 (q : ℚ) : ℚ :=
  (roundHalfEven (q * 100) : ℚ) / 100

/-- models.py lines 240-243, the body of the `percentage` property: 0 when
no questions, otherwise `round(correct/total*100, 2)`. -/
def percentage_of (total correct : Int) : ℚ :=
  if total = 0 then 0
  else round2 ((correct : ℚ) / (total : ℚ) * 100)

/-- models.py lines 240-243: the `percentage` property of a session. -/
def TestSession.percentage (s : TestSession) : ℚ :=
  percentage_of s.total_questions s.correct_answers

/-- views.py `get_object_or_404(Student, id=student_id, class_room__teacher=request.user)`:
the student with the given id whose classroom is owned by the teacher. -/
def find_student (db : DB) (teacher_id student_id : Nat) : Option Student :=
  db.students.find? fun st =>
    st.id == student_id &&
    db.classrooms.any fun c => c.id == st.class_room_id && c.teacher_id == teacher_id

/-- views.py lines 167-170: `Vocabulary.objects.filter(teacher=request.user,
category_id=category_id)` — the vocabulary pool of the category. -/
def vocab_pool (db : DB) (teacher_id category_id : Nat) : List Vocabulary :=
  db.vocabs.filter fun v => v.teacher_id == teacher_id && v.category_id == category_id

/-- Join `session__student=student` on a Result row: its session exists and
belongs to the student. -/
def result_session_student (db : DB) (student_id : Nat) (r : Result) : Bool :=
  db.sessions.any fun s => s.id == r.session_id && s.student_id == student_id

/-- Join `vocabulary__category_id=category_id` on a Result row: its
vocabulary exists and lies in the category. -/
def result_vocab_category (db : DB) (category_id : Nat) (r : Result) : Bool :=
  db.vocabs.any fun v => v.id == r.vocabulary_id && v.category_id == category_id

/-- views.py lines 178-181: `Result.objects.filter(session__student=student,
vocabulary__category_id=category_id).values_list('vocabulary_id', flat=True)`.
Note the filter constrains the session only by student, and the category
only through the vocabulary row, not through the session. -/
def used_vocab_ids (db : DB) (student_id category_id : Nat) : List Nat :=
  (db.results.filter fun r =>
      result_session_student db student_id r && result_vocab_category db category_id r).map
    fun r => r.vocabulary_id

/-- views.py line 185: `vocabularies.exclude(id__in=used_vocab_ids)` — the
pool minus the already answered ids. -/
def remaining_vocabularies (db : DB) (teacher_id student_id category_id : Nat) :
    List Vocabulary :=
  (vocab_pool db teacher_id category_id).filter fun v =>
    !((used_vocab_ids db student_id category_id).contains v.id)

/-- Placeholder record used as the (never reached) default of list indexing;
all indices passed to `List.getD` below are in bounds by construction. -/
def dummy_vocab : Vocabulary :=
  { id := 0, word := "", image := none, category_id := 0, teacher_id := 0 }

/-- Python `random.sample(l, 2)`: two elements at distinct positions, or
failure (`ValueError`) when fewer than two elements exist.  The seeds `i`
and `j` choose the first position and the offset of the second. -/
def sample2 (l : List Vocabulary) (i j : Nat) : Option (Vocabulary × Vocabulary) :=
  if 2 ≤ l.length then
    let i' := i % l.length
    let j0 := j % (l.length - 1)
    let j' := if j0 < i' then j0 else j0 + 1
    some (l.getD i' dummy_vocab, l.getD j' dummy_vocab)
  else none

/-- Python `random.shuffle` of the 3-element list `[a, b, c]`: the seed `k`
picks one of the six orderings. -/
def shuffle3 (k : Nat) (a b c : Vocabulary) : List Vocabulary :=
  if k % 6 = 0 then [a, b, c]
  else if k % 6 = 1 then [a, c, b]
  else if k % 6 = 2 then [b, a, c]
  else if k % 6 = 3 then [b, c, a]
  else if k % 6 = 4 then [c, a, b]
  else [c, b, a]

/-- Responses of views.py `get_random_test_question`.  `notFound` is the 404
from the student lookup, `badRequest` the missing-category 400,
`insufficientPool` the `"Test hali mavjud emas!"` 400, `finished` the
`finished: true` payload, `sampleError` the uncaught `ValueError` that
`random.sample` would raise on a too-small population, and `question` the
successful payload (correct id, word, image url, shuffled options). -/
inductive QuestionResponse where
  | notFound
  | badRequest (msg : String)
  | insufficientPool
  | finished
  | sampleError
  | question (vocab_id : Nat) (word : String) (image_url : Option String)
      (options : List (Nat × String))
deriving DecidableEq, Repr

/-- views.py lines 152-206 `get_random_test_question`: look up the student,
require the category parameter, require a pool of at least 3 words, compute
the not-yet-answered remainder, return `finished` when it is empty,
otherwise pick a correct word from the remainder (seed `iC`), sample two
distractors from the pool minus the correct word (seeds `iW`, `jW`), shuffle
the three options (seed `kS`) and return the question payload. -/
def get_random_test_question (db : DB) (teacher : User) (student_id : Nat)
    (category : Option Nat) (iC iW jW kS : Nat) : QuestionResponse :=
  match find_student db teacher.id student_id with
  | none => .notFound
  | some student =>
    match category with
    | none => .badRequest "Kategoriya ID majburiy"
    | some category_id =>
      let vocabularies := vocab_pool db teacher.id category_id
      if vocabularies.length < 3 then .insufficientPool
      else
        let remaining := remaining_vocabularies db teacher.id student.id category_id
        if remaining.length = 0 then .finished
        else
          let correct := remaining.getD (iC % remaining.length) dummy_vocab
          let wrong_vocabs := vocabularies.filter fun v => !(v.id == correct.id)
          match sample2 wrong_vocabs iW jW with
          | none => .sampleError
          | some (w1, w2) =>
            let all_options := shuffle3 kS correct w1 w2
            .question correct.id correct.word correct.image
              (all_options.map fun v => (v.id, v.word))

/-- Lookup half of the `TestSession.objects.get_or_create(student=...,
category=...)` of views.py lines 248-252: the first session stored for the
(student, category) pair. -/
def find_session (db : DB) (student_id category_id : Nat) : Option TestSession :=
  db.sessions.find? fun s => s.student_id == student_id && s.category_id == category_id

/-- Responses of views.py `submit_test_answer`.  `notFound` covers both the
student 404 and the teacher-scoped vocabulary 404; `validationError` covers
the serializer 400s (missing field, unknown vocabulary id); `ok` is the 201
payload. -/
inductive SubmitResponse where
  | notFound
  | validationError (msg : String)
  | ok (correct : Bool) (correct_word : Option String) (result_id : Nat)
      (total_questions : Int) (correct_answers : Int) (percentage : ℚ)
deriving DecidableEq, Repr

/-- views.py lines 231-274 `submit_test_answer` together with
serializers.py lines 150-165 `TestAnswerSerializer`: look up the student
(404), require both integer fields (400), require the vocabulary id to
exist at all (serializer, 400, not teacher-scoped), look the vocabulary up
teacher-scoped (404), score `is_correct = (vocab.id == selected_option_id)`,
get-or-create the (student, category) session with zero counters, append a
Result row, increment the session counters and save, and answer with the
new totals and percentage. -/
def submit_test_answer (db : DB) (teacher : User) (student_id : Nat)
    (vocab_id selected_option_id : Option Int) : DB × SubmitResponse :=
  match find_student db teacher.id student_id with
  | none => (db, .notFound)
  | some student =>
    match vocab_id, selected_option_id with
    | some vid, some sid =>
      if !(db.vocabs.any fun v => (v.id : Int) == vid) then
        (db, .validationError "Invalid vocabulary ID.")
      else
        match db.vocabs.find? fun v => (v.id : Int) == vid && v.teacher_id == teacher.id with
        | none => (db, .notFound)
        | some vocab =>
          let is_correct := ((vocab.id : Int) == sid)
          let (sess, db1) :=
            match find_session db student.id vocab.category_id with
            | some s => (s, db)
            | none =>
              let s : TestSession :=
                { id := db.nextSessionId, student_id := student.id,
                  category_id := vocab.category_id,
                  total_questions := 0, correct_answers := 0 }
              (s, { db with
                    sessions := db.sessions ++ [s],
                    nextSessionId := db.nextSessionId + 1 })
          let res : Result :=
            { id := db1.nextResultId, session_id := sess.id,
              vocabulary_id := vocab.id, is_correct := is_correct }
          let db2 := { db1 with
            results := db1.results ++ [res],
            nextResultId := db1.nextResultId + 1 }
          let sess2 := { sess with
            total_questions := sess.total_questions + 1,
            correct_answers := sess.correct_answers + (if is_correct then 1 else 0) }
          let db3 := { db2 with
            sessions := db2.sessions.map fun s => if s.id == sess.id then sess2 else s }
          (db3, .ok is_correct (if is_correct then some vocab.word else none) res.id
            sess2.total_questions sess2.correct_answers sess2.percentage)
    | _, _ => (db, .validationError "This field is required.")

/-- Responses of views.py `clear_student_results`: the 404 or the fixed
message payload.  The view computes no deletion count (the counting line is
commented out in the source). -/
inductive ClearResponse where
  | notFound
  | ok (message : String) (student_id : Nat)
deriving DecidableEq, Repr

/-- views.py lines 344-353 `clear_student_results`: delete every TestSession
of the student; the `on_delete=CASCADE` of `Result.session` (models.py line
250) also deletes every Result referencing one of those sessions.  The
response carries only a fixed message and the student id.  (The source
message contains a typographic apostrophe, omitted here.) -/
def clear_student_results (db : DB) (teacher : User) (student_id : Nat) :
    DB × ClearResponse :=
  match find_student db teacher.id student_id with
  | none => (db, .notFound)
  | some student =>
    let doomed := db.sessions.filter fun s => s.student_id == student.id
    let db1 := { db with
      sessions := db.sessions.filter fun s => !(s.student_id == student.id),
      results := db.results.filter fun r => !(doomed.any fun s => s.id == r.session_id) }
    (db1, .ok "Natija ochirildi." student.id)

/-- One per-student row of the class summary built by views.py lines
322-333. -/
structure ClassEntry where
  id : Nat
  full_name : String
  total_tests : Int
  correct_answers : Int
  incorrect_answers : Int
  accuracy_percentage : ℚ
deriving DecidableEq, Repr

/-- Responses of views.py `get_students_results`. -/
inductive ClassResultsResponse where
  | badRequest (msg : String)
  | notFound
  | ok (class_name : String) (teacher_name : String) (category_id : Nat)
      (students : List ClassEntry)
deriving DecidableEq, Repr

/-- views.py lines 316-319: `TestSession.objects.filter(
student__class_room=class_room, category_id=category_id)`. -/
def class_sessions (db : DB) (class_id category_id : Nat) : List TestSession :=
  db.sessions.filter fun s =>
    (db.students.any fun p => p.id == s.student_id && p.class_room_id == class_id) &&
    s.category_id == category_id

/-- views.py lines 323-333: the row for one student — the first session of
that student among the category's sessions, or zeros when none exists. -/
def class_entry (sessions : List TestSession) (st : Student) : ClassEntry :=
  match sessions.find? fun s => s.student_id == st.id with
  | some session =>
    { id := st.id, full_name := st.full_name,
      total_tests := session.total_questions,
      correct_answers := session.correct_answers,
      incorrect_answers := session.total_questions - session.correct_answers,
      accuracy_percentage := session.percentage }
  | none =>
    { id := st.id, full_name := st.full_name, total_tests := 0,
      correct_answers := 0, incorrect_answers := 0, accuracy_percentage := 0 }

/-- views.py lines 302-340 `get_students_results`: require the category
parameter, look the classroom up teacher-scoped, then emit one row per
student of the classroom in roster order. -/
def get_students_results (db : DB) (teacher : User) (class_id : Nat)
    (category : Option Nat) : ClassResultsResponse :=
  match category with
  | none => .badRequest "category param majburiy"
  | some category_id =>
    match db.classrooms.find? fun c => c.id == class_id && c.teacher_id == teacher.id with
    | none => .notFound
    | some class_room =>
      let students := db.students.filter fun st => st.class_room_id == class_room.id
      let sessions := class_sessions db class_room.id category_id
      .ok class_room.name teacher.full_name category_id
        (students.map (class_entry sessions))

/-- Field names defined on the Result model (models.py lines 249-253): the
implicit primary key plus the declared fields.  There is no `student`
field — the student is only reachable through `session`. -/
def result_field_names : List String :=
  ["id", "session", "vocabulary", "is_correct", "created_at"]

/-- Django field resolution for `Result.objects.filter(<kw>=value)`: a
keyword that is not a field of the model raises `FieldError` at the moment
`filter` is called. -/
def result_filter_kw (db : DB) (kw : String) (value : Nat) :
    Except String (List Result) :=
  if kw == "session" then .ok (db.results.filter fun r => r.session_id == value)
  else if kw == "vocabulary" then .ok (db.results.filter fun r => r.vocabulary_id == value)
  else if kw == "id" then .ok (db.results.filter fun r => r.id == value)
  else .error ("Cannot resolve keyword " ++ kw ++ " into field")

/-- views.py lines 281-299 `get_student_results`: after the student lookup
it evaluates `Result.objects.filter(student=student)`, which raises
`FieldError` — `Result` has no `student` field (see `result_field_names`).
The summary construction below that line (which would additionally need the
nonexistent `Student.results` relation used by `Student.total_tests`,
`Student.correct_answers` etc. of models.py lines 119-140) is never
reached; the exception surfaces as an HTTP 500. -/
def get_student_results (db : DB) (teacher : User) (student_id : Nat) :
    Except String (List Result) :=
  match find_student db teacher.id student_id with
  | none => .error "Not found"
  | some student => result_filter_kw db "student" student.id

/-- Modelled from the spec (§4.1 step 2), for comparison with
`used_vocab_ids`: the ids "derived from Result rows joined through the
student's TestSession for that category" — the session itself must be for
the requested category. -/
def spec_used_vocab_ids (db : DB) (student_id category_id : Nat) : List Nat :=
  (db.results.filter fun r =>
      db.sessions.any fun s =>
        s.id == r.session_id && s.student_id == student_id &&
        s.category_id == category_id).map
    fun r => r.vocabulary_id

/-- Characterisation (for the amended C5): a vocabulary id counts as
answered for (student, category) exactly when some Result of one of the
student's sessions — of any category — references a vocabulary row of the
requested category with that id. -/
def answered_in_category (db : DB) (student_id category_id vid : Nat) : Prop :=
  ∃ r ∈ db.results, r.vocabulary_id = vid ∧
    (∃ s ∈ db.sessions, s.id = r.session_id ∧ s.student_id = student_id) ∧
    (∃ v ∈ db.vocabs, v.id = vid ∧ v.category_id = category_id)

/-- Shape test: whether a submit response is the 201 success payload. -/
def SubmitResponse.isOk : SubmitResponse → Bool
  | .ok _ _ _ _ _ _ => true
  | _ => false

/-- Driver for the counter claims: one `submit_test_answer` call per
(vocab_id, selected_option_id) pair, threading the store, collecting the
responses in call order. -/
def submit_answers (db : DB) (teacher : User) (student_id : Nat) :
    List (Int × Int) → DB × List SubmitResponse
  | [] => (db, [])
  | (vid, sid) :: rest =>
    let step := submit_test_answer db teacher student_id (some vid) (some sid)
    let next := submit_answers step.1 teacher student_id rest
    (next.1, step.2 :: next.2)

/-- One bundle of random seeds for a `get_random_test_question` call. -/
structure Seed where
  iC : Nat
  iW : Nat
  jW : Nat
  kS : Nat
deriving DecidableEq, Repr

/-- Driver for the no-repeat claim: alternately call
`get_random_test_question` and, when it yields a question, submit its
correct id as the chosen answer (`SubmitAnswer(correct)`), collecting the
correct vocabulary ids in call order.  The run stops at the first response
that is not a question (exhaustion or an error). -/
def select_submit_trace (db : DB) (teacher : User) (student_id category_id : Nat) :
    List Seed → DB × List Nat
  | [] => (db, [])
  | seed :: rest =>
    match get_random_test_question db teacher student_id (some category_id)
        seed.iC seed.iW seed.jW seed.kS with
    | .question vid _ _ _ =>
      let db1 := (submit_test_answer db teacher student_id
        (some (vid : Int)) (some (vid : Int))).1
      let next := select_submit_trace db1 teacher student_id category_id rest
      (next.1, vid :: next.2)
    | _ => (db, [])

/-- Store invariant maintained by the database for the sessions table: the
primary keys are distinct and below the fresh-id counter. -/
def DB.sessionsWF (db : DB) : Prop :=
  (db.sessions.map TestSession.id).Nodup ∧
  ∀ s ∈ db.sessions, s.id < db.nextSessionId

/-- Counters of the first (student, category) session, (0, 0) when none is
stored — used to state the counter-consistency claims. -/
def session_totals (db : DB) (student_id category_id : Nat) : Int × Int :=
  match find_session db student_id category_id with
  | some s => (s.total_questions, s.correct_answers)
  | none => (0, 0)

/-- Number of correct submissions in a call list: those whose vocabulary id
equals the selected option id. -/
def correct_count (calls : List (Int × Int)) : Nat :=
  (calls.filter fun p => p.1 == p.2).length

/-- Concrete teacher used by the concrete evaluations below. -/
def teacher1 : User := { id := 1, full_name := "T" }

/-- Concrete store: one classroom, one student, three words of category 10. -/
def sample_db : DB :=
  { classrooms := [{ id := 1, name := "A", teacher_id := 1 }],
    students := [{ id := 1, full_name := "S", class_room_id := 1 }],
    vocabs :=
      [{ id := 1, word := "apple", image := none, category_id := 10, teacher_id := 1 },
       { id := 2, word := "dog", image := none, category_id := 10, teacher_id := 1 },
       { id := 3, word := "cat", image := none, category_id := 10, teacher_id := 1 }],
    sessions := [], results := [], nextSessionId := 100, nextResultId := 1000 }

/-- Concrete store for the C5 counterexample: the student answered word 1
(of category 10), but the Result hangs off a session whose own category is
20, not 10. -/
def crossed_db : DB :=
  { classrooms := [{ id := 1, name := "A", teacher_id := 1 }],
    students := [{ id := 1, full_name := "S", class_room_id := 1 }],
    vocabs :=
      [{ id := 1, word := "apple", image := none, category_id := 10, teacher_id := 1 },
       { id := 2, word := "dog", image := none, category_id := 10, teacher_id := 1 },
       { id := 3, word := "cat", image := none, category_id := 10, teacher_id := 1 }],
    sessions :=
      [{ id := 100, student_id := 1, category_id := 20,
         total_questions := 1, correct_answers := 1 }],
    results :=
      [{ id := 1000, session_id := 100, vocabulary_id := 1, is_correct := true }],
    nextSessionId := 101, nextResultId := 1001 }

/-- Concrete store for the C6 counterexample: the student owns two sessions
and three results, so clearing deletes five rows. -/
def loaded_db : DB :=
  { classrooms := [{ id := 1, name := "A", teacher_id := 1 }],
    students := [{ id := 1, full_name := "S", class_room_id := 1 }],
    vocabs :=
      [{ id := 1, word := "apple", image := none, category_id := 10, teacher_id := 1 },
       { id := 2, word := "dog", image := none, category_id := 10, teacher_id := 1 },
       { id := 3, word := "cat", image := none, category_id := 10, teacher_id := 1 }],
    sessions :=
      [{ id := 100, student_id := 1, category_id := 10,
         total_questions := 2, correct_answers := 1 },
       { id := 101, student_id := 1, category_id := 20,
         total_questions := 1, correct_answers := 0 }],
    results :=
      [{ id := 1000, session_id := 100, vocabulary_id := 1, is_correct := true },
       { id := 1001, session_id := 100, vocabulary_id := 2, is_correct := false },
       { id := 1002, session_id := 101, vocabulary_id := 3, is_correct := false }],
    nextSessionId := 102, nextResultId := 1003 }

/-- Number of rows `clear_student_results` removes for a student: their
sessions plus the cascaded results (used to state the C6 counterexample). -/
def clear_deleted_count (db : DB) (student_id : Nat) : Nat :=
  (db.sessions.filter fun s => s.student_id == student_id).length +
  (db.results.filter fun r =>
    (db.sessions.filter fun s => s.student_id == student_id).any
      fun s => s.id == r.session_id).length

/-! ### Generic list lemmas -/

theorem getD_mem (l : List Vocabulary) (i : Nat) (d : Vocabulary)
    (h : i < l.length) : l.getD i d ∈ l := by
  rw [List.getD_eq_get l d h]
  exact List.get_mem l i h

theorem nodup_map_get_ne {α β : Type} (f : α → β) (l : List α)
    (h : (l.map f).Nodup) {i j : Nat} (hi : i < l.length) (hj : j < l.length)
    (hij : i ≠ j) : f (l.get ⟨i, hi⟩) ≠ f (l.get ⟨j, hj⟩) := by
  intro hEq
  have hi2 : i < (l.map f).length := by simpa using hi
  have hj2 : j < (l.map f).length := by simpa using hj
  have hgets : (l.map f).get ⟨i, hi2⟩ = (l.map f).get ⟨j, hj2⟩ := by
    simpa [List.get_map] using hEq
  have := (List.Nodup.get_inj_iff h).mp hgets
  simp only [Fin.mk.injEq] at this
  exact hij this

/-- Inversion for a successful 2-sample: two elements at distinct in-bounds
positions. -/
theorem sample2_some (l : List Vocabulary) (i j : Nat) (a b : Vocabulary)
    (h : sample2 l i j = some (a, b)) :
    ∃ (i' j' : Nat) (hi : i' < l.length) (hj : j' < l.length),
      i' ≠ j' ∧ a = l.get ⟨i', hi⟩ ∧ b = l.get ⟨j', hj⟩ := by
  unfold sample2 at h
  split at h
  case isTrue hlen =>
    dsimp only at h
    rw [Option.some.injEq, Prod.mk.injEq] at h
    obtain ⟨ha, hb⟩ := h
    have hiL : i % l.length < l.length := Nat.mod_lt _ (by omega)
    have hj0L : j % (l.length - 1) < l.length - 1 := Nat.mod_lt _ (by omega)
    by_cases hc : j % (l.length - 1) < i % l.length
    · rw [if_pos hc] at hb
      refine ⟨i % l.length, j % (l.length - 1), hiL, by omega, by omega, ?_, ?_⟩
      · rw [← ha, List.getD_eq_get]
      · rw [← hb, List.getD_eq_get]
    · rw [if_neg hc] at hb
      refine ⟨i % l.length, j % (l.length - 1) + 1, hiL, by omega, by omega, ?_, ?_⟩
      · rw [← ha, List.getD_eq_get]
      · rw [← hb, List.getD_eq_get]
  case isFalse => exact Option.noConfusion h

/-- With distinct primary keys, a successful 2-sample yields two members of
the population with different ids. -/
theorem sample2_mem_ne (l : List Vocabulary) (i j : Nat) (a b : Vocabulary)
    (hn : (l.map Vocabulary.id).Nodup)
    (h : sample2 l i j = some (a, b)) :
    a ∈ l ∧ b ∈ l ∧ a.id ≠ b.id := by
  obtain ⟨i', j', hi, hj, hij, ha, hb⟩ := sample2_some l i j a b h
  subst ha hb
  exact ⟨List.get_mem l i' hi, List.get_mem l j' hj,
    nodup_map_get_ne Vocabulary.id l hn hi hj hij⟩

/-- Inversion of a successful student lookup. -/
theorem find_student_some (db : DB) (teacher_id student_id : Nat) (st : Student)
    (h : find_student db teacher_id student_id = some st) :
    st ∈ db.students ∧ st.id = student_id ∧
      ∃ c ∈ db.classrooms, c.id = st.class_room_id ∧ c.teacher_id = teacher_id := by
  unfold find_student at h
  have hmem := List.mem_of_find?_eq_some h
  have hp := List.find?_some h
  simp only [Bool.and_eq_true, beq_iff_eq, List.any_eq_true] at hp
  obtain ⟨hid, c, hc, hcid, hct⟩ := hp
  exact ⟨hmem, hid, c, hc, hcid, hct⟩

/-- Inversion of a successful question selection: the branch structure of
`get_random_test_question` forces the student lookup, the category
parameter, the pool-size guard and the non-empty remainder, and exposes the
chosen correct word, the sampled distractors and the shuffled options. -/
theorem question_inv (db : DB) (teacher : User) (student_id : Nat)
    (category : Option Nat) (iC iW jW kS : Nat) {vid : Nat} {w : String}
    {im : Option String} {opts : List (Nat × String)}
    (hq : get_random_test_question db teacher student_id category iC iW jW kS =
      .question vid w im opts) :
    ∃ student category_id correct w1 w2,
      find_student db teacher.id student_id = some student ∧
      category = some category_id ∧
      3 ≤ (vocab_pool db teacher.id category_id).length ∧
      0 < (remaining_vocabularies db teacher.id student.id category_id).length ∧
      correct = (remaining_vocabularies db teacher.id student.id category_id).getD
        (iC % (remaining_vocabularies db teacher.id student.id category_id).length)
        dummy_vocab ∧
      sample2 ((vocab_pool db teacher.id category_id).filter fun v =>
        !(v.id == correct.id)) iW jW = some (w1, w2) ∧
      vid = correct.id ∧ w = correct.word ∧ im = correct.image ∧
      opts = (shuffle3 kS correct w1 w2).map fun v => (v.id, v.word) := by
  unfold get_random_test_question at hq
  split at hq
  · exact QuestionResponse.noConfusion hq
  next student hst =>
    split at hq
    · exact QuestionResponse.noConfusion hq
    next category_id =>
      dsimp only at hq
      split at hq
      · exact QuestionResponse.noConfusion hq
      next h3 =>
        split at hq
        · exact QuestionResponse.noConfusion hq
        next h0 =>
          split at hq
          · exact QuestionResponse.noConfusion hq
          next w1 w2 hs =>
            rw [QuestionResponse.question.injEq] at hq
            obtain ⟨hvid, hw, him, hopts⟩ := hq
            exact ⟨student, category_id, _, w1, w2, hst, rfl, by omega, by omega,
              rfl, hs, hvid.symm, hw.symm, him.symm, hopts.symm⟩

/-- Filtering preserves distinctness of the mapped primary keys. -/
theorem nodup_ids_filter (l : List Vocabulary) (p : Vocabulary → Bool)
    (h : (l.map Vocabulary.id).Nodup) :
    ((l.filter p).map Vocabulary.id).Nodup :=
  h.sublist ((List.filter_sublist l).map Vocabulary.id)

/-- The shuffled option list of three words with pairwise distinct ids has
three entries, pairwise distinct ids, and contains the first id exactly
once — for every shuffle seed. -/
theorem shuffle3_options (k : Nat) (a b c : Vocabulary)
    (hab : a.id ≠ b.id) (hac : a.id ≠ c.id) (hbc : b.id ≠ c.id) :
    ((shuffle3 k a b c).map fun v => (v.id, v.word)).length = 3 ∧
    ((((shuffle3 k a b c).map fun v => (v.id, v.word)).map Prod.fst).Nodup) ∧
    ((((shuffle3 k a b c).map fun v => (v.id, v.word)).map Prod.fst).count a.id = 1) := by
  have h : k % 6 = 0 ∨ k % 6 = 1 ∨ k % 6 = 2 ∨ k % 6 = 3 ∨ k % 6 = 4 ∨ k % 6 = 5 := by
    omega
  rcases h with h|h|h|h|h|h <;>
    simp [shuffle3, h, List.count_cons, hab, hac, hbc, hab.symm, hac.symm, hbc.symm]

/-- C1: whenever `get_random_test_question` returns a question, the options
list has exactly 3 entries, the option ids are pairwise distinct, and the
correct vocabulary id occurs among the option ids exactly once — for every
store with distinct vocabulary primary keys and all random seeds. -/
theorem C1_question_options (db : DB) (teacher : User) (student_id : Nat)
    (category : Option Nat) (iC iW jW kS : Nat) (vid : Nat) (w : String)
    (im : Option String) (opts : List (Nat × String))
    (hids : (db.vocabs.map Vocabulary.id).Nodup)
    (hq : get_random_test_question db teacher student_id category iC iW jW kS =
      .question vid w im opts) :
    opts.length = 3 ∧ (opts.map Prod.fst).Nodup ∧ (opts.map Prod.fst).count vid = 1 := by
  obtain ⟨student, category_id, correct, w1, w2, hst, hcat, h3, h0, hcor, hs, hvid,
    hw, him, hopts⟩ := question_inv db teacher student_id category iC iW jW kS hq
  have hpool : ((vocab_pool db teacher.id category_id).map Vocabulary.id).Nodup :=
    nodup_ids_filter db.vocabs _ hids
  have hwrong : (((vocab_pool db teacher.id category_id).filter fun v =>
      !(v.id == correct.id)).map Vocabulary.id).Nodup :=
    nodup_ids_filter _ _ hpool
  obtain ⟨hw1mem, hw2mem, hww⟩ := sample2_mem_ne _ iW jW w1 w2 hwrong hs
  have hw1 : correct.id ≠ w1.id := by
    have := List.of_mem_filter hw1mem
    simp only [Bool.not_eq_eq_eq_not, Bool.not_true, beq_eq_false_iff_ne] at this
    exact (Ne.symm this)
  have hw2 : correct.id ≠ w2.id := by
    have := List.of_mem_filter hw2mem
    simp only [Bool.not_eq_eq_eq_not, Bool.not_true, beq_eq_false_iff_ne] at this
    exact (Ne.symm this)
  subst hopts hvid
  exact shuffle3_options kS correct w1 w2 hw1 hw2 hww

/-- Witness for C1 at the concrete store: seeds (0,0,0,0) produce the
question for word 1 with options 1, 2, 3. -/
theorem C1_question_options_witness :
    ([((1 : Nat), "apple"), (2, "dog"), (3, "cat")].length = 3) ∧
    (([((1 : Nat), "apple"), (2, "dog"), (3, "cat")].map Prod.fst).Nodup) ∧
    (([((1 : Nat), "apple"), (2, "dog"), (3, "cat")].map Prod.fst).count 1 = 1) :=
  C1_question_options sample_db teacher1 1 (some 10) 0 0 0 0 1 "apple" none
    [(1, "apple"), (2, "dog"), (3, "cat")] (by decide) (by decide)

/-- Membership in the used-ids list, unfolded to its existential form. -/
theorem mem_used_vocab_ids (db : DB) (student_id category_id vid : Nat) :
    vid ∈ used_vocab_ids db student_id category_id ↔
      ∃ r ∈ db.results, r.vocabulary_id = vid ∧
        (∃ s ∈ db.sessions, s.id = r.session_id ∧ s.student_id = student_id) ∧
        (∃ v ∈ db.vocabs, v.id = r.vocabulary_id ∧ v.category_id = category_id) := by
  unfold used_vocab_ids result_session_student result_vocab_category
  simp only [List.mem_map, List.mem_filter, Bool.and_eq_true, List.any_eq_true,
    beq_iff_eq]
  constructor
  · rintro ⟨r, ⟨hr, ⟨s, hs, hs1, hs2⟩, ⟨v, hv, hv1, hv2⟩⟩, hvid⟩
    exact ⟨r, hr, hvid, ⟨s, hs, hs1, hs2⟩, ⟨v, hv, hv1, hv2⟩⟩
  · rintro ⟨r, hr, hvid, ⟨s, hs, hs1, hs2⟩, ⟨v, hv, hv1, hv2⟩⟩
    exact ⟨r, ⟨hr, ⟨s, hs, hs1, hs2⟩, ⟨v, hv, hv1, hv2⟩⟩, hvid⟩

/-- C4: when every vocabulary id of the category's pool already occurs as
the vocabulary id of some Result of the student, the next selection call
answers `finished` instead of a question — for every seed. -/
theorem C4_exhausted (db : DB) (teacher : User) (student_id category_id : Nat)
    (iC iW jW kS : Nat) (student : Student)
    (hst : find_student db teacher.id student_id = some student)
    (hpool : 3 ≤ (vocab_pool db teacher.id category_id).length)
    (hall : ∀ v ∈ vocab_pool db teacher.id category_id,
      ∃ r ∈ db.results, r.vocabulary_id = v.id ∧
        ∃ s ∈ db.sessions, s.id = r.session_id ∧ s.student_id = student_id) :
    get_random_test_question db teacher student_id (some category_id) iC iW jW kS =
      .finished := by
  have hsid : student.id = student_id :=
    (find_student_some db teacher.id student_id student hst).2.1
  have hrem : remaining_vocabularies db teacher.id student.id category_id = [] := by
    unfold remaining_vocabularies
    rw [List.filter_eq_nil]
    intro v hv
    simp only [Bool.not_eq_true', Bool.not_eq_false]
    rw [List.elem_iff]
    obtain ⟨r, hr, hvid, s, hs, hs1, hs2⟩ := hall v hv
    rw [mem_used_vocab_ids]
    have hvmem : v ∈ db.vocabs := (List.mem_filter.mp hv).1
    have hvcat : v.category_id = category_id := by
      have := (List.mem_filter.mp hv).2
      simp only [Bool.and_eq_true, beq_iff_eq] at this
      exact this.2
    exact ⟨r, hr, hvid, ⟨s, hs, hs1, by omega⟩, ⟨v, hvmem, hvid.symm, hvcat⟩⟩
  unfold get_random_test_question
  rw [hst]
  simp only
  rw [if_neg (by omega), hrem]
  simp

/-- Removing the entries with one fixed id from a list with distinct ids
drops at most one element. -/
theorem filter_ne_id_length (l : List Vocabulary) (n : Nat)
    (hn : (l.map Vocabulary.id).Nodup) :
    l.length - 1 ≤ (l.filter fun v => !(v.id == n)).length := by
  induction l with
  | nil => simp
  | cons x t ih =>
    simp only [List.map_cons, List.nodup_cons] at hn
    obtain ⟨hx, ht⟩ := hn
    rw [List.filter_cons]
    by_cases hxa : (x.id == n) = true
    · have hxn : x.id = n := by simpa using hxa
      have heq : t.filter (fun v => !(v.id == n)) = t := by
        rw [List.filter_eq_self]
        intro v hv
        have hvn : v.id ≠ n := by
          intro h
          exact hx (List.mem_map.mpr ⟨v, hv, by omega⟩)
        simp [hvn]
      simp [hxa, heq]
    · simp only [hxa, Bool.not_false, if_true]
      have := ih ht
      simp only [List.length_cons]
      omega

/-- A 2-sample from a population of at least two elements always succeeds,
with the two drawn positions determined by the seeds. -/
theorem sample2_isSome (l : List Vocabulary) (i j : Nat) (h : 2 ≤ l.length) :
    sample2 l i j = some (l.getD (i % l.length) dummy_vocab,
      l.getD (if j % (l.length - 1) < i % l.length then j % (l.length - 1)
        else j % (l.length - 1) + 1) dummy_vocab) := by
  unfold sample2
  rw [if_pos h]

/-- C7: with a matching student, the selection call signals the
insufficient-pool error exactly on pools of fewer than 3 words, and with a
pool of at least 3 words (and distinct primary keys) the 2-distractor draw
can never fail — the `random.sample` failure branch is unreachable. -/
theorem C7_insufficient_pool (db : DB) (teacher : User)
    (student_id category_id : Nat) (iC iW jW kS : Nat) (student : Student)
    (hst : find_student db teacher.id student_id = some student)
    (hids : (db.vocabs.map Vocabulary.id).Nodup) :
    ((vocab_pool db teacher.id category_id).length < 3 →
      get_random_test_question db teacher student_id (some category_id) iC iW jW kS =
        .insufficientPool) ∧
    (3 ≤ (vocab_pool db teacher.id category_id).length →
      get_random_test_question db teacher student_id (some category_id) iC iW jW kS ≠
        .sampleError) := by
  constructor
  · intro h3
    unfold get_random_test_question
    rw [hst]
    simp only
    rw [if_pos h3]
  · intro h3
    unfold get_random_test_question
    rw [hst]
    simp only
    rw [if_neg (by omega)]
    by_cases h0 : (remaining_vocabularies db teacher.id student.id category_id).length = 0
    · rw [if_pos h0]
      simp
    · rw [if_neg h0]
      have hpool : ((vocab_pool db teacher.id category_id).map Vocabulary.id).Nodup :=
        nodup_ids_filter db.vocabs _ hids
      have hlen : 2 ≤ ((vocab_pool db teacher.id category_id).filter fun v =>
          !(v.id == ((remaining_vocabularies db teacher.id student.id
            category_id).getD (iC % (remaining_vocabularies db teacher.id
            student.id category_id).length) dummy_vocab).id)).length := by
        have := filter_ne_id_length (vocab_pool db teacher.id category_id)
          ((remaining_vocabularies db teacher.id student.id category_id).getD
            (iC % (remaining_vocabularies db teacher.id student.id
              category_id).length) dummy_vocab).id hpool
        omega
      rw [sample2_isSome _ iW jW hlen]
      simp

/-- Witness for C4: in `loaded_db` the student has answered all three words
of category 10 (two through the category-10 session, one through the
category-20 session), so selection reports exhaustion. -/
theorem C4_exhausted_witness :
    get_random_test_question loaded_db teacher1 1 (some 10) 0 0 0 0 =
      .finished :=
  C4_exhausted loaded_db teacher1 1 10 0 0 0 0
    { id := 1, full_name := "S", class_room_id := 1 }
    (by decide) (by decide) (by decide)

/-- Witness for C7: category 11 has an empty pool, so selection signals the
insufficient-pool error; category 10 has three words, so the sample failure
cannot occur. -/
theorem C7_insufficient_pool_witness :
    get_random_test_question sample_db teacher1 1 (some 11) 0 0 0 0 =
      .insufficientPool ∧
    get_random_test_question sample_db teacher1 1 (some 10) 0 0 0 0 ≠
      .sampleError :=
  ⟨(C7_insufficient_pool sample_db teacher1 1 11 0 0 0 0
      { id := 1, full_name := "S", class_room_id := 1 } (by decide) (by decide)).1
      (by decide),
   (C7_insufficient_pool sample_db teacher1 1 10 0 0 0 0
      { id := 1, full_name := "S", class_room_id := 1 } (by decide) (by decide)).2
      (by decide)⟩

/-- Every class-summary row carries the id of the student it was built
from, session or no session. -/
theorem class_entry_id (sessions : List TestSession) (st : Student) :
    (class_entry sessions st).id = st.id := by
  unfold class_entry
  split <;> rfl

/-- A student with no matching session gets the all-zero row. -/
theorem class_entry_zero (sessions : List TestSession) (st : Student)
    (h : sessions.find? (fun s => s.student_id == st.id) = none) :
    class_entry sessions st =
      { id := st.id, full_name := st.full_name, total_tests := 0,
        correct_answers := 0, incorrect_answers := 0, accuracy_percentage := 0 } := by
  unfold class_entry
  rw [h]

/-- C8: a successful class summary has exactly one row per student of the
classroom, in roster order, and every student without a session for the
requested category gets zero totals, zero correct and incorrect counts and
0% accuracy. -/
theorem C8_class_summary (db : DB) (teacher : User) (class_id category_id : Nat)
    (cname tname : String) (cid : Nat) (entries : List ClassEntry)
    (hok : get_students_results db teacher class_id (some category_id) =
      .ok cname tname cid entries) :
    entries.length =
      (db.students.filter fun st => st.class_room_id == class_id).length ∧
    ∀ i (hi : i < (db.students.filter fun st =>
        st.class_room_id == class_id).length),
      ∃ (hi2 : i < entries.length),
        (entries.get ⟨i, hi2⟩).id =
          ((db.students.filter fun st =>
            st.class_room_id == class_id).get ⟨i, hi⟩).id ∧
        ((¬ ∃ s ∈ db.sessions,
            s.student_id = ((db.students.filter fun st =>
              st.class_room_id == class_id).get ⟨i, hi⟩).id ∧
            s.category_id = category_id) →
          (entries.get ⟨i, hi2⟩).total_tests = 0 ∧
          (entries.get ⟨i, hi2⟩).correct_answers = 0 ∧
          (entries.get ⟨i, hi2⟩).incorrect_answers = 0 ∧
          (entries.get ⟨i, hi2⟩).accuracy_percentage = 0) := by
  unfold get_students_results at hok
  simp only at hok
  split at hok
  · exact ClassResultsResponse.noConfusion hok
  next class_room hfind =>
    have hcid : class_room.id = class_id := by
      have := List.find?_some hfind
      simp only [Bool.and_eq_true, beq_iff_eq] at this
      exact this.1
    rw [ClassResultsResponse.ok.injEq] at hok
    obtain ⟨-, -, -, hentries⟩ := hok
    subst hcid
    rw [← hentries]
    constructor
    · simp
    · intro i hi
      have hi2 : i < ((db.students.filter fun st =>
          st.class_room_id == class_room.id).map
            (class_entry (class_sessions db class_room.id category_id))).length := by
        simpa using hi
      refine ⟨hi2, ?_, ?_⟩
      · rw [List.get_map]
        exact class_entry_id _ _
      · intro hnone
        rw [List.get_map]
        rw [class_entry_zero]
        · exact ⟨rfl, rfl, rfl, rfl⟩
        · rw [List.find?_eq_none]
          intro s hs
          simp only [beq_iff_eq]
          intro heq
          apply hnone
          unfold class_sessions at hs
          have hsmem : s ∈ db.sessions := (List.mem_filter.mp hs).1
          have hscat : s.category_id = category_id := by
            have := (List.mem_filter.mp hs).2
            simp only [Bool.and_eq_true, beq_iff_eq, List.any_eq_true] at this
            exact this.2
          exact ⟨s, hsmem, heq, hscat⟩

/-- Witness for C8 at the concrete store: the single student of class 1 has
no session, and the summary still has exactly one row. -/
theorem C8_class_summary_witness :
    ([({ id := 1, full_name := "S", total_tests := 0, correct_answers := 0,
         incorrect_answers := 0, accuracy_percentage := 0 } : ClassEntry)].length =
      (sample_db.students.filter fun st => st.class_room_id == 1).length) :=
  (C8_class_summary sample_db teacher1 1 10 "A" "T" 10
    [{ id := 1, full_name := "S", total_tests := 0, correct_answers := 0,
       incorrect_answers := 0, accuracy_percentage := 0 }] (by decide)).1

/-- Counterexample to C5 as stated: in `crossed_db` the student's only
Result hangs off a session of category 20 while referencing a vocabulary of
category 10, so the code's used-id set for category 10 is `[1]` although no
Result reaches category 10 through the student's TestSession for that
category — the two sets differ. -/
theorem C5_used_ids_counterexample :
    used_vocab_ids crossed_db 1 10 ≠ spec_used_vocab_ids crossed_db 1 10 := by
  decide

/-- C5 amended: the set of vocabulary ids treated as already answered
equals the ids of Result rows of ANY of the student's sessions whose
referenced vocabulary row lies in the requested category — the session's
own category is not constrained. -/
theorem C5_used_ids_amended (db : DB) (student_id category_id vid : Nat) :
    vid ∈ used_vocab_ids db student_id category_id ↔
      answered_in_category db student_id category_id vid := by
  rw [mem_used_vocab_ids]
  unfold answered_in_category
  constructor
  · rintro ⟨r, hr, hvid, hsess, v, hv, hv1, hv2⟩
    exact ⟨r, hr, hvid, hsess, v, hv, by omega, hv2⟩
  · rintro ⟨r, hr, hvid, hsess, v, hv, hv1, hv2⟩
    exact ⟨r, hr, hvid, hsess, v, hv, by omega, hv2⟩

/-- Counterexample to C6 as stated: clearing a history of five rows (two
sessions, three cascaded results) and clearing an empty history produce
literally identical responses, so the response carries no deletion count at
all — in particular the second call cannot "return 0". -/
theorem C6_clear_counterexample :
    (clear_student_results loaded_db teacher1 1).2 =
      (clear_student_results sample_db teacher1 1).2 ∧
    clear_deleted_count loaded_db 1 = 5 ∧
    clear_deleted_count sample_db 1 = 0 := by
  decide
/-- C6 amended: clearing deletes exactly the student's sessions and the
results referencing them, answers a fixed message (without any deletion
count), is idempotent — the second call changes nothing and succeeds with
the same response — and afterwards the student's used-id set is empty, so
selection again sees the full pool as remaining. -/
theorem C6_clear_results (db : DB) (teacher : User) (student_id : Nat)
    (student : Student)
    (hst : find_student db teacher.id student_id = some student) :
    (∀ s ∈ (clear_student_results db teacher student_id).1.sessions,
      s.student_id ≠ student_id) ∧
    (∀ s ∈ db.sessions, s.student_id ≠ student_id →
      s ∈ (clear_student_results db teacher student_id).1.sessions) ∧
    (∀ r ∈ (clear_student_results db teacher student_id).1.results,
      ¬ ∃ s ∈ db.sessions, s.id = r.session_id ∧ s.student_id = student_id) ∧
    (∀ r ∈ db.results,
      (¬ ∃ s ∈ db.sessions, s.id = r.session_id ∧ s.student_id = student_id) →
      r ∈ (clear_student_results db teacher student_id).1.results) ∧
    (clear_student_results db teacher student_id).2 =
      .ok "Natija ochirildi." student_id ∧
    clear_student_results (clear_student_results db teacher student_id).1
      teacher student_id = clear_student_results db teacher student_id ∧
    (∀ category_id,
      used_vocab_ids (clear_student_results db teacher student_id).1
        student_id category_id = []) ∧
    (∀ teacher_id category_id,
      remaining_vocabularies (clear_student_results db teacher student_id).1
        teacher_id student_id category_id = vocab_pool db teacher_id category_id) := by
  have hsid : student.id = student_id :=
    (find_student_some db teacher.id student_id student hst).2.1
  have hout : clear_student_results db teacher student_id =
      ({ db with
          sessions := db.sessions.filter fun s => !(s.student_id == student.id),
          results := db.results.filter fun r =>
            !((db.sessions.filter fun s => s.student_id == student.id).any
              fun s => s.id == r.session_id) },
        .ok "Natija ochirildi." student.id) := by
    unfold clear_student_results
    rw [hst]
  have hsess : ∀ s ∈ (clear_student_results db teacher student_id).1.sessions,
      s.student_id ≠ student_id := by
    rw [hout]
    intro s hs
    have := (List.mem_filter.mp hs).2
    simp only [Bool.not_eq_eq_eq_not, Bool.not_true, beq_eq_false_iff_ne] at this
    omega
  have hres : ∀ r ∈ (clear_student_results db teacher student_id).1.results,
      ¬ ∃ s ∈ db.sessions, s.id = r.session_id ∧ s.student_id = student_id := by
    rw [hout]
    intro r hr
    rintro ⟨s, hsmem, hsid2, hsst⟩
    have h2 := (List.mem_filter.mp hr).2
    rw [Bool.not_eq_true', List.any_eq_false] at h2
    have hmem2 : s ∈ db.sessions.filter fun s => s.student_id == student.id :=
      List.mem_filter.mpr ⟨hsmem, beq_iff_eq.mpr (by omega)⟩
    exact h2 s hmem2 (beq_iff_eq.mpr hsid2)
  have hused : ∀ category_id,
      used_vocab_ids (clear_student_results db teacher student_id).1
        student_id category_id = [] := by
    intro category_id
    unfold used_vocab_ids
    rw [List.map_eq_nil]
    rw [List.filter_eq_nil]
    intro r hr
    simp only [Bool.and_eq_true, not_and]
    intro hrs
    exfalso
    unfold result_session_student at hrs
    simp only [List.any_eq_true, Bool.and_eq_true, beq_iff_eq] at hrs
    obtain ⟨s, hs, hs1, hs2⟩ := hrs
    exact hsess s hs hs2
  refine ⟨hsess, ?_, hres, ?_, ?_, ?_, hused, ?_⟩
  · intro s hs hne
    rw [hout]
    refine List.mem_filter.mpr ⟨hs, ?_⟩
    simp only [Bool.not_eq_eq_eq_not, Bool.not_true, beq_eq_false_iff_ne]
    omega
  · intro r hr hno
    rw [hout]
    refine List.mem_filter.mpr ⟨hr, ?_⟩
    simp only [Bool.not_eq_eq_eq_not, Bool.not_true, List.any_eq_false]
    intro s hs heq
    have heqn : s.id = r.session_id := beq_iff_eq.mp heq
    have hsmem : s ∈ db.sessions := (List.mem_filter.mp hs).1
    have hsst : s.student_id = student.id := by
      have := (List.mem_filter.mp hs).2
      simpa using this
    exact hno ⟨s, hsmem, heqn, by omega⟩
  · rw [hout]
    rw [hsid]
  · -- idempotence
    have hst2 : find_student (clear_student_results db teacher student_id).1
        teacher.id student_id = some student := by
      rw [hout]
      exact hst
    rw [hout] at hst2 ⊢
    unfold clear_student_results
    rw [hst2]
    simp only
    rw [Prod.mk.injEq]
    refine ⟨?_, rfl⟩
    rw [DB.mk.injEq]
    refine ⟨rfl, rfl, rfl, ?_, ?_, rfl, rfl⟩
    · rw [List.filter_eq_self]
      intro s hs
      exact (List.mem_filter.mp hs).2
    · have hnos : ((db.sessions.filter fun s => !(s.student_id == student.id)).filter
          fun s => s.student_id == student.id) = [] := by
        rw [List.filter_eq_nil]
        intro s hs
        have := (List.mem_filter.mp hs).2
        simp only [Bool.not_eq_eq_eq_not, Bool.not_true, beq_eq_false_iff_ne] at this
        simp only [beq_iff_eq]
        omega
      rw [hnos]
      rw [List.filter_eq_self]
      intro r hr
      simp
  · intro teacher_id category_id
    unfold remaining_vocabularies
    rw [hused category_id]
    have hvp : vocab_pool (clear_student_results db teacher student_id).1
        teacher_id category_id = vocab_pool db teacher_id category_id := by
      rw [hout]
      rfl
    rw [hvp, List.filter_eq_self]
    intro v hv
    simp [List.contains]

/-- Witness for C6 at the concrete store: clearing answers the fixed
message and a second clear is a no-op. -/
theorem C6_clear_results_witness :
    (clear_student_results loaded_db teacher1 1).2 =
      .ok "Natija ochirildi." 1 ∧
    clear_student_results (clear_student_results loaded_db teacher1 1).1
      teacher1 1 = clear_student_results loaded_db teacher1 1 :=
  ⟨(C6_clear_results loaded_db teacher1 1
      { id := 1, full_name := "S", class_room_id := 1 } (by decide)).2.2.2.2.1,
   (C6_clear_results loaded_db teacher1 1
      { id := 1, full_name := "S", class_room_id := 1 } (by decide)).2.2.2.2.2.1⟩

/-- C9 (code bug): for every store and every student the teacher owns, the
per-student summary endpoint fails — `Result.objects.filter(student=...)`
cannot be built because the Result model has no `student` field, so the
view raises FieldError (HTTP 500) instead of returning the summary the
claim describes. -/
theorem C9_student_results_error (db : DB) (teacher : User) (student_id : Nat)
    (student : Student)
    (hst : find_student db teacher.id student_id = some student) :
    get_student_results db teacher student_id =
      .error "Cannot resolve keyword student into field" := by
  unfold get_student_results
  rw [hst]
  rfl

/-- Witness for C9: the summary endpoint fails on the concrete store with a
perfectly valid student. -/
theorem C9_student_results_error_witness :
    get_student_results sample_db teacher1 1 =
      .error "Cannot resolve keyword student into field" :=
  C9_student_results_error sample_db teacher1 1
    { id := 1, full_name := "S", class_room_id := 1 } (by decide)

/-- Value of a submit call when the student lookup fails. -/
theorem submit_no_student (db : DB) (teacher : User) (student_id : Nat)
    (vocab_id selected_option_id : Option Int)
    (hst : find_student db teacher.id student_id = none) :
    submit_test_answer db teacher student_id vocab_id selected_option_id =
      (db, .notFound) := by
  unfold submit_test_answer
  rw [hst]

/-- Value of a submit call when a required field is missing. -/
theorem submit_missing_field (db : DB) (teacher : User) (student_id : Nat)
    (student : Student) (vocab_id selected_option_id : Option Int)
    (hst : find_student db teacher.id student_id = some student)
    (hmiss : vocab_id = none ∨ selected_option_id = none) :
    submit_test_answer db teacher student_id vocab_id selected_option_id =
      (db, .validationError "This field is required.") := by
  unfold submit_test_answer
  rw [hst]
  dsimp only
  rcases hmiss with h | h
  · subst h
    cases selected_option_id <;> rfl
  · subst h
    cases vocab_id <;> rfl

/-- Value of a submit call when no vocabulary row has the submitted id. -/
theorem submit_invalid_vocab (db : DB) (teacher : User) (student_id : Nat)
    (student : Student) (vid sid : Int)
    (hst : find_student db teacher.id student_id = some student)
    (hany : (db.vocabs.any fun v => (v.id : Int) == vid) = false) :
    submit_test_answer db teacher student_id (some vid) (some sid) =
      (db, .validationError "Invalid vocabulary ID.") := by
  unfold submit_test_answer
  rw [hst]
  dsimp only
  rw [hany]
  rfl

/-- Value of a submit call when the id exists but not for this teacher. -/
theorem submit_not_owned (db : DB) (teacher : User) (student_id : Nat)
    (student : Student) (vid sid : Int)
    (hst : find_student db teacher.id student_id = some student)
    (hany : (db.vocabs.any fun v => (v.id : Int) == vid) = true)
    (hfind : db.vocabs.find? (fun v =>
      ((v.id : Int) == vid) && (v.teacher_id == teacher.id)) = none) :
    submit_test_answer db teacher student_id (some vid) (some sid) =
      (db, .notFound) := by
  unfold submit_test_answer
  rw [hst]
  dsimp only
  rw [hany, hfind]
  rfl

/-- Value of a successful submit call when the (student, category) session
already exists: one Result row is appended and the found session's counters
are bumped in place. -/
theorem submit_eq_found (db : DB) (teacher : User) (student_id : Nat)
    (student : Student) (vid sid : Int) (vocab : Vocabulary) (sess : TestSession)
    (hst : find_student db teacher.id student_id = some student)
    (hany : (db.vocabs.any fun v => (v.id : Int) == vid) = true)
    (hfind : db.vocabs.find? (fun v =>
      ((v.id : Int) == vid) && (v.teacher_id == teacher.id)) = some vocab)
    (hsess : find_session db student.id vocab.category_id = some sess) :
    submit_test_answer db teacher student_id (some vid) (some sid) =
      ({ db with
          sessions := db.sessions.map fun s =>
            if s.id == sess.id then
              { sess with
                total_questions := sess.total_questions + 1,
                correct_answers := sess.correct_answers +
                  (if ((vocab.id : Int) == sid) then 1 else 0) }
            else s,
          results := db.results ++
            [{ id := db.nextResultId, session_id := sess.id,
               vocabulary_id := vocab.id,
               is_correct := ((vocab.id : Int) == sid) }],
          nextResultId := db.nextResultId + 1 },
        .ok ((vocab.id : Int) == sid)
          (if ((vocab.id : Int) == sid) then some vocab.word else none)
          db.nextResultId
          (sess.total_questions + 1)
          (sess.correct_answers + (if ((vocab.id : Int) == sid) then 1 else 0))
          (percentage_of (sess.total_questions + 1)
            (sess.correct_answers +
              (if ((vocab.id : Int) == sid) then 1 else 0)))) := by
  unfold submit_test_answer
  rw [hst]
  dsimp only
  rw [hany, hfind]
  dsimp only
  rw [hsess]
  rfl

/-- Value of a successful submit call when no (student, category) session
exists yet: a zero-counter session is created, one Result row is appended,
and the new session's counters are bumped. -/
theorem submit_eq_created (db : DB) (teacher : User) (student_id : Nat)
    (student : Student) (vid sid : Int) (vocab : Vocabulary)
    (hst : find_student db teacher.id student_id = some student)
    (hany : (db.vocabs.any fun v => (v.id : Int) == vid) = true)
    (hfind : db.vocabs.find? (fun v =>
      ((v.id : Int) == vid) && (v.teacher_id == teacher.id)) = some vocab)
    (hsess : find_session db student.id vocab.category_id = none) :
    submit_test_answer db teacher student_id (some vid) (some sid) =
      ({ db with
          sessions := (db.sessions ++
            [({ id := db.nextSessionId, student_id := student.id,
                category_id := vocab.category_id,
                total_questions := 0, correct_answers := 0 } : TestSession)]).map
              fun (s : TestSession) =>
            if s.id == db.nextSessionId then
              { id := db.nextSessionId, student_id := student.id,
                category_id := vocab.category_id,
                total_questions := 1,
                correct_answers := (if ((vocab.id : Int) == sid) then 1 else 0) }
            else s,
          results := db.results ++
            [{ id := db.nextResultId, session_id := db.nextSessionId,
               vocabulary_id := vocab.id,
               is_correct := ((vocab.id : Int) == sid) }],
          nextSessionId := db.nextSessionId + 1,
          nextResultId := db.nextResultId + 1 },
        .ok ((vocab.id : Int) == sid)
          (if ((vocab.id : Int) == sid) then some vocab.word else none)
          db.nextResultId
          1
          (if ((vocab.id : Int) == sid) then 1 else 0)
          (percentage_of 1 (if ((vocab.id : Int) == sid) then 1 else 0))) := by
  unfold submit_test_answer
  rw [hst]
  dsimp only
  rw [hany, hfind]
  dsimp only
  rw [hsess]
  dsimp only
  simp only [zero_add]
  rfl

/-- C10: a submit call fails exactly when the student lookup fails, a field
is missing, the vocabulary id does not exist at all, or it is not owned by
the requesting teacher; it never rejects a repeated or never-posed
vocabulary id — every successful call appends one more Result — and a
session's total_questions can exceed the category's pool size (witnessed by
answering the same word four times against a pool of three). -/
theorem C10_submit_error_conditions :
    (∀ (db : DB) (teacher : User) (student_id : Nat)
        (vocab_id selected_option_id : Option Int),
      ((submit_test_answer db teacher student_id vocab_id
          selected_option_id).2).isOk = true ↔
        ((find_student db teacher.id student_id).isSome ∧
         ∃ vid sid, vocab_id = some vid ∧ selected_option_id = some sid ∧
           (db.vocabs.any fun v => (v.id : Int) == vid) = true ∧
           (db.vocabs.find? fun v =>
             ((v.id : Int) == vid) && (v.teacher_id == teacher.id)).isSome)) ∧
    (∀ (db : DB) (teacher : User) (student_id : Nat)
        (vocab_id selected_option_id : Option Int),
      ((submit_test_answer db teacher student_id vocab_id
          selected_option_id).2).isOk = true →
      (submit_test_answer db teacher student_id vocab_id
          selected_option_id).1.results.length = db.results.length + 1) ∧
    (∃ s, find_session (submit_answers sample_db teacher1 1
        [(1, 1), (1, 1), (1, 1), (1, 1)]).1 1 10 = some s ∧
      ((vocab_pool sample_db 1 10).length : Int) < s.total_questions) := by
  refine ⟨?_, ?_, ?_⟩
  · intro db teacher student_id vocab_id selected_option_id
    cases hst : find_student db teacher.id student_id with
    | none =>
      rw [submit_no_student db teacher student_id _ _ hst]
      simp [SubmitResponse.isOk]
    | some student =>
      cases vocab_id with
      | none =>
        rw [submit_missing_field db teacher student_id student _ _ hst (Or.inl rfl)]
        simp [SubmitResponse.isOk]
      | some vid =>
        cases selected_option_id with
        | none =>
          rw [submit_missing_field db teacher student_id student _ _ hst (Or.inr rfl)]
          simp [SubmitResponse.isOk]
        | some sid =>
          by_cases hany : (db.vocabs.any fun v => (v.id : Int) == vid) = true
          · cases hfind : db.vocabs.find? fun v =>
                ((v.id : Int) == vid) && (v.teacher_id == teacher.id) with
            | none =>
              rw [submit_not_owned db teacher student_id student vid sid hst hany hfind]
              simp [SubmitResponse.isOk, hst, hany, hfind]
              intro x hx hxid x2 hx2 hxid2
              rw [List.find?_eq_none] at hfind
              have h5 := hfind x2 hx2
              simp only [Bool.and_eq_true, beq_iff_eq, not_and] at h5
              exact h5 hxid2
            | some vocab =>
              cases hsess : find_session db student.id vocab.category_id with
              | none =>
                rw [submit_eq_created db teacher student_id student vid sid vocab
                  hst hany hfind hsess]
                simp [SubmitResponse.isOk, hst, hany, hfind]
                have hmem := List.mem_of_find?_eq_some hfind
                have hp := List.find?_some hfind
                simp only [Bool.and_eq_true, beq_iff_eq] at hp
                exact ⟨⟨vocab, hmem, hp.1⟩, vocab, hmem, hp.1, hp.2⟩
              | some sess =>
                rw [submit_eq_found db teacher student_id student vid sid vocab sess
                  hst hany hfind hsess]
                simp [SubmitResponse.isOk, hst, hany, hfind]
                have hmem := List.mem_of_find?_eq_some hfind
                have hp := List.find?_some hfind
                simp only [Bool.and_eq_true, beq_iff_eq] at hp
                exact ⟨⟨vocab, hmem, hp.1⟩, vocab, hmem, hp.1, hp.2⟩
          · have hany2 : (db.vocabs.any fun v => (v.id : Int) == vid) = false := by
              simpa using hany
            rw [submit_invalid_vocab db teacher student_id student vid sid hst hany2]
            simp [SubmitResponse.isOk, hany2]
            intro x hx hxid
            rw [List.any_eq_false] at hany2
            exact absurd (beq_iff_eq.mpr hxid) (hany2 x hx)
  · intro db teacher student_id vocab_id selected_option_id hok
    cases hst : find_student db teacher.id student_id with
    | none =>
      rw [submit_no_student db teacher student_id _ _ hst] at hok
      simp [SubmitResponse.isOk] at hok
    | some student =>
      cases vocab_id with
      | none =>
        rw [submit_missing_field db teacher student_id student _ _ hst (Or.inl rfl)] at hok
        simp [SubmitResponse.isOk] at hok
      | some vid =>
        cases selected_option_id with
        | none =>
          rw [submit_missing_field db teacher student_id student _ _ hst
            (Or.inr rfl)] at hok
          simp [SubmitResponse.isOk] at hok
        | some sid =>
          by_cases hany : (db.vocabs.any fun v => (v.id : Int) == vid) = true
          · cases hfind : db.vocabs.find? fun v =>
                ((v.id : Int) == vid) && (v.teacher_id == teacher.id) with
            | none =>
              rw [submit_not_owned db teacher student_id student vid sid
                hst hany hfind] at hok
              simp [SubmitResponse.isOk] at hok
            | some vocab =>
              cases hsess : find_session db student.id vocab.category_id with
              | none =>
                rw [submit_eq_created db teacher student_id student vid sid vocab
                  hst hany hfind hsess]
                simp
              | some sess =>
                rw [submit_eq_found db teacher student_id student vid sid vocab sess
                  hst hany hfind hsess]
                simp
          · have hany2 : (db.vocabs.any fun v => (v.id : Int) == vid) = false := by
              simpa using hany
            rw [submit_invalid_vocab db teacher student_id student vid sid
              hst hany2] at hok
            simp [SubmitResponse.isOk] at hok
  · refine ⟨{ id := 100, student_id := 1, category_id := 10,
              total_questions := 4, correct_answers := 4 }, by decide, by decide⟩

/-- Witness for C10: submitting an existing, owned vocabulary id appends
one Result to the concrete store. -/
theorem C10_submit_error_conditions_witness :
    (submit_test_answer sample_db teacher1 1 (some 1) (some 1)).1.results.length =
      sample_db.results.length + 1 :=
  C10_submit_error_conditions.2.1 sample_db teacher1 1 (some 1) (some 1) (by decide)

/-- With distinct vocabulary ids, the teacher-scoped lookup of a stored
vocabulary row by its own id returns exactly that row. -/
theorem find_vocab_eq (l : List Vocabulary) (v : Vocabulary) (vid : Int) (tid : Nat)
    (hids : (l.map Vocabulary.id).Nodup)
    (hv : v ∈ l) (hvid : (v.id : Int) = vid) (ht : v.teacher_id = tid) :
    l.find? (fun w => ((w.id : Int) == vid) && (w.teacher_id == tid)) = some v := by
  induction l with
  | nil => cases hv
  | cons a t ih =>
    simp only [List.map_cons, List.nodup_cons] at hids
    rw [List.find?_cons]
    by_cases hpa : (((a.id : Int) == vid) && (a.teacher_id == tid)) = true
    · rw [hpa]
      simp only [Bool.and_eq_true, beq_iff_eq] at hpa
      rcases List.mem_cons.mp hv with h | h
      · rw [h]
      · exfalso
        apply hids.1
        rw [List.mem_map]
        exact ⟨v, h, by omega⟩
    · rw [Bool.not_eq_true] at hpa
      rw [hpa]
      rcases List.mem_cons.mp hv with h | h
      · exfalso
        rw [← h, hvid, ht] at hpa
        simp at hpa
      · exact ih hids.2 h

/-- Replacing the session with a given id by a session with the same id
leaves the list of primary keys unchanged. -/
theorem map_update_ids (l : List TestSession) (n : Nat) (x : TestSession)
    (hid : x.id = n) :
    (l.map fun s => if s.id == n then x else s).map TestSession.id =
      l.map TestSession.id := by
  induction l with
  | nil => rfl
  | cons a t ih =>
    simp only [List.map_cons, ih, List.cons.injEq, and_true]
    by_cases h : (a.id == n) = true
    · rw [if_pos h, hid]
      exact (beq_iff_eq.mp h).symm
    · rw [if_neg (by simp [h])]

/-- The in-place update is the identity on a list that contains no session
with the updated id. -/
theorem map_update_skip (l : List TestSession) (n : Nat) (x : TestSession)
    (h : ∀ s ∈ l, s.id ≠ n) :
    (l.map fun s => if s.id == n then x else s) = l := by
  induction l with
  | nil => rfl
  | cons a t ih =>
    simp only [List.map_cons, List.cons.injEq]
    constructor
    · rw [if_neg (by simp [h a (List.mem_cons_self a t)])]
    · exact ih fun s hs => h s (List.mem_cons_of_mem a hs)

/-- Finding a record and updating it in place: the search afterwards finds
the updated record, provided the primary keys are distinct and the update
still satisfies the predicate. -/
theorem find_map_update (l : List TestSession) (p : TestSession → Bool)
    (sess x : TestSession)
    (hfind : l.find? p = some sess)
    (hnodup : (l.map TestSession.id).Nodup)
    (hx : p x = true) :
    (l.map fun s => if s.id == sess.id then x else s).find? p = some x := by
  induction l with
  | nil => cases hfind
  | cons a t ih =>
    simp only [List.map_cons, List.nodup_cons] at hnodup
    rw [List.find?_cons] at hfind
    simp only [List.map_cons]
    by_cases hpa : p a = true
    · rw [hpa] at hfind
      have ha : a = sess := by
        have := Option.some.injEq a sess
        rw [Option.some.injEq] at hfind
        exact hfind
      rw [List.find?_cons, if_pos (by rw [ha]; simp)]
      rw [hx]
    · rw [Bool.not_eq_true] at hpa
      rw [hpa] at hfind
      have hsess_mem : sess ∈ t := List.mem_of_find?_eq_some hfind
      have hane : (a.id == sess.id) = false := by
        rw [beq_eq_false_iff_ne]
        intro heq
        apply hnodup.1
        rw [List.mem_map]
        exact ⟨sess, hsess_mem, heq.symm⟩
      rw [List.find?_cons, if_neg (by simp [hane])]
      rw [hpa]
      exact ih hfind hnodup.2

/-- A submit call never touches the classroom, student or vocabulary
tables. -/
theorem submit_preserves_tables (db : DB) (teacher : User) (student_id : Nat)
    (vocab_id selected_option_id : Option Int) :
    (submit_test_answer db teacher student_id vocab_id
      selected_option_id).1.vocabs = db.vocabs ∧
    (submit_test_answer db teacher student_id vocab_id
      selected_option_id).1.students = db.students ∧
    (submit_test_answer db teacher student_id vocab_id
      selected_option_id).1.classrooms = db.classrooms := by
  cases hst : find_student db teacher.id student_id with
  | none =>
    rw [submit_no_student db teacher student_id _ _ hst]
    exact ⟨rfl, rfl, rfl⟩
  | some student =>
    cases vocab_id with
    | none =>
      rw [submit_missing_field db teacher student_id student _ _ hst (Or.inl rfl)]
      exact ⟨rfl, rfl, rfl⟩
    | some vid =>
      cases selected_option_id with
      | none =>
        rw [submit_missing_field db teacher student_id student _ _ hst (Or.inr rfl)]
        exact ⟨rfl, rfl, rfl⟩
      | some sid =>
        by_cases hany : (db.vocabs.any fun v => (v.id : Int) == vid) = true
        · cases hfind : db.vocabs.find? fun v =>
              ((v.id : Int) == vid) && (v.teacher_id == teacher.id) with
          | none =>
            rw [submit_not_owned db teacher student_id student vid sid hst hany hfind]
            exact ⟨rfl, rfl, rfl⟩
          | some vocab =>
            cases hsess : find_session db student.id vocab.category_id with
            | none =>
              rw [submit_eq_created db teacher student_id student vid sid vocab
                hst hany hfind hsess]
              exact ⟨rfl, rfl, rfl⟩
            | some sess =>
              rw [submit_eq_found db teacher student_id student vid sid vocab sess
                hst hany hfind hsess]
              exact ⟨rfl, rfl, rfl⟩
        · have hany2 : (db.vocabs.any fun v => (v.id : Int) == vid) = false := by
            simpa using hany
          rw [submit_invalid_vocab db teacher student_id student vid sid hst hany2]
          exact ⟨rfl, rfl, rfl⟩

/-- A submit call does not change which students any teacher can look up. -/
theorem submit_preserves_find_student (db : DB) (teacher : User)
    (student_id : Nat) (vocab_id selected_option_id : Option Int)
    (tid sid2 : Nat) :
    find_student (submit_test_answer db teacher student_id vocab_id
      selected_option_id).1 tid sid2 = find_student db tid sid2 := by
  have h := submit_preserves_tables db teacher student_id vocab_id selected_option_id
  unfold find_student
  rw [h.2.1, h.2.2]

/-- One successful submit call for a vocabulary of category `c` bumps the
(student, c) session counters by (1, correct?), answers the 201 payload
with the new counters and their percentage, and preserves the session-table
invariant. -/
theorem submit_step_totals (db : DB) (teacher : User) (student_id : Nat)
    (student : Student) (v : Vocabulary) (vid sid : Int)
    (hst : find_student db teacher.id student_id = some student)
    (hwf : db.sessionsWF)
    (hids : (db.vocabs.map Vocabulary.id).Nodup)
    (hv : v ∈ db.vocabs) (hvid : (v.id : Int) = vid)
    (hteach : v.teacher_id = teacher.id) :
    session_totals (submit_test_answer db teacher student_id
        (some vid) (some sid)).1 student_id v.category_id =
      ((session_totals db student_id v.category_id).1 + 1,
       (session_totals db student_id v.category_id).2 +
         (if vid == sid then 1 else 0)) ∧
    (submit_test_answer db teacher student_id (some vid) (some sid)).2 =
      .ok (vid == sid) (if vid == sid then some v.word else none) db.nextResultId
        ((session_totals db student_id v.category_id).1 + 1)
        ((session_totals db student_id v.category_id).2 +
          (if vid == sid then 1 else 0))
        (percentage_of
          ((session_totals db student_id v.category_id).1 + 1)
          ((session_totals db student_id v.category_id).2 +
            (if vid == sid then 1 else 0))) ∧
    (submit_test_answer db teacher student_id
      (some vid) (some sid)).1.sessionsWF := by
  have hsid : student.id = student_id :=
    (find_student_some db teacher.id student_id student hst).2.1
  have hany : (db.vocabs.any fun w => (w.id : Int) == vid) = true := by
    rw [List.any_eq_true]
    exact ⟨v, hv, beq_iff_eq.mpr hvid⟩
  have hfind : db.vocabs.find? (fun w =>
      ((w.id : Int) == vid) && (w.teacher_id == teacher.id)) = some v :=
    find_vocab_eq db.vocabs v vid teacher.id hids hv hvid hteach
  have hcorr : ((v.id : Int) == sid) = (vid == sid) := by rw [hvid]
  cases hsess : find_session db student.id v.category_id with
  | some sess =>
    rw [submit_eq_found db teacher student_id student vid sid v sess
      hst hany hfind hsess]
    rw [hsid] at hsess
    have htot : session_totals db student_id v.category_id =
        (sess.total_questions, sess.correct_answers) := by
      unfold session_totals
      rw [hsess]
    have hpred := List.find?_some hsess
    have hnew : find_session
        { db with
          sessions := db.sessions.map fun s =>
            if s.id == sess.id then
              { sess with
                total_questions := sess.total_questions + 1,
                correct_answers := sess.correct_answers +
                  (if ((v.id : Int) == sid) then 1 else 0) }
            else s,
          results := db.results ++
            [{ id := db.nextResultId, session_id := sess.id,
               vocabulary_id := v.id,
               is_correct := ((v.id : Int) == sid) }],
          nextResultId := db.nextResultId + 1 } student_id v.category_id =
        some { sess with
          total_questions := sess.total_questions + 1,
          correct_answers := sess.correct_answers +
            (if ((v.id : Int) == sid) then 1 else 0) } := by
      unfold find_session
      exact find_map_update db.sessions _ sess _ hsess hwf.1 hpred
    refine ⟨?_, ?_, ?_⟩
    · rw [htot]
      unfold session_totals
      rw [hnew, hcorr]
    · rw [htot, hcorr]
    · refine ⟨?_, ?_⟩
      · dsimp only
        rw [map_update_ids db.sessions sess.id
          { sess with
            total_questions := sess.total_questions + 1,
            correct_answers := sess.correct_answers +
              (if ((v.id : Int) == sid) then 1 else 0) } rfl]
        exact hwf.1
      · dsimp only
        intro s2 hs2
        obtain ⟨s, hs, hfs⟩ := List.mem_map.mp hs2
        by_cases hcase : (s.id == sess.id) = true
        · rw [if_pos hcase] at hfs
          rw [← hfs]
          exact hwf.2 sess (List.mem_of_find?_eq_some hsess)
        · rw [if_neg (by simp [hcase])] at hfs
          rw [← hfs]
          exact hwf.2 s hs
  | none =>
    rw [submit_eq_created db teacher student_id student vid sid v
      hst hany hfind hsess]
    rw [hsid] at hsess
    have htot : session_totals db student_id v.category_id = (0, 0) := by
      unfold session_totals
      rw [hsess]
    have hmap : ((db.sessions ++
        [({ id := db.nextSessionId, student_id := student.id,
            category_id := v.category_id,
            total_questions := 0, correct_answers := 0 } : TestSession)]).map
          fun (s : TestSession) =>
        if s.id == db.nextSessionId then
          { id := db.nextSessionId, student_id := student.id,
            category_id := v.category_id,
            total_questions := 1,
            correct_answers := (if ((v.id : Int) == sid) then 1 else 0) }
        else s) =
        db.sessions ++
        [{ id := db.nextSessionId, student_id := student.id,
           category_id := v.category_id,
           total_questions := 1,
           correct_answers := (if ((v.id : Int) == sid) then 1 else 0) }] := by
      rw [List.map_append]
      rw [map_update_skip db.sessions db.nextSessionId _
        (fun s hs => Nat.ne_of_lt (hwf.2 s hs))]
      simp
    refine ⟨?_, ?_, ?_⟩
    · rw [htot]
      unfold session_totals find_session
      unfold find_session at hsess
      rw [hmap, List.find?_append, hsess, Option.none_or]
      have hfind1 : (List.find? (fun s =>
          s.student_id == student_id && s.category_id == v.category_id)
          [({ id := db.nextSessionId, student_id := student.id,
              category_id := v.category_id,
              total_questions := 1,
              correct_answers := (if ((v.id : Int) == sid) then 1 else 0) } :
            TestSession)]) =
          some ({ id := db.nextSessionId, student_id := student.id,
                  category_id := v.category_id,
                  total_questions := 1,
                  correct_answers :=
                    (if ((v.id : Int) == sid) then 1 else 0) } : TestSession) := by
        simp [hsid]
      rw [hfind1, hcorr]
      simp
    · rw [htot, hcorr]
      simp
    · constructor
      · rw [hmap]
        simp only [List.map_append, List.map_cons, List.map_nil]
        rw [List.nodup_append]
        refine ⟨hwf.1, by simp, ?_⟩
        intro x hx hx2
        rw [List.mem_map] at hx
        obtain ⟨s, hs, hsid2⟩ := hx
        rw [List.mem_singleton] at hx2
        have hlt := hwf.2 s hs
        have heq : s.id = db.nextSessionId := by rw [hsid2]; exact hx2
        omega
      · dsimp only
        intro s2 hs2
        rw [hmap] at hs2
        rcases List.mem_append.mp hs2 with h | h
        · have := hwf.2 s2 h
          omega
        · simp only [List.mem_singleton] at h
          rw [h]
          dsimp only
          omega

/-- Splitting the correct-submission count at the head call. -/
theorem correct_count_cons (vid sid : Int) (rest : List (Int × Int)) :
    correct_count ((vid, sid) :: rest) =
      (if vid == sid then 1 else 0) + correct_count rest := by
  unfold correct_count
  rw [List.filter_cons]
  by_cases h : (vid == sid) = true
  · simp [h]
    omega
  · simp [h]

/-- The driver answers every call. -/
theorem submit_answers_length (teacher : User) (student_id : Nat) :
    ∀ (calls : List (Int × Int)) (db : DB),
      (submit_answers db teacher student_id calls).2.length = calls.length := by
  intro calls
  induction calls with
  | nil => intro db; rfl
  | cons p rest ih =>
    intro db
    obtain ⟨vid, sid⟩ := p
    unfold submit_answers
    simp [ih]

/-- Counter invariant of the driver: starting from any store in which the
teacher owns the student, the session table satisfies its invariant and
every call names an owned vocabulary of category `c`, running the calls
adds (number of calls, number of correct calls) to the (student, c)
counters, preserves the other tables, and answers the last call with the
final counters and their percentage. -/
theorem submit_answers_spec (teacher : User) (student_id c : Nat) :
    ∀ (calls : List (Int × Int)) (db : DB) (student : Student),
      find_student db teacher.id student_id = some student →
      db.sessionsWF →
      (db.vocabs.map Vocabulary.id).Nodup →
      (∀ p ∈ calls, ∃ v ∈ db.vocabs, (v.id : Int) = p.1 ∧
        v.teacher_id = teacher.id ∧ v.category_id = c) →
      (submit_answers db teacher student_id calls).1.sessionsWF ∧
      (submit_answers db teacher student_id calls).1.vocabs = db.vocabs ∧
      find_student (submit_answers db teacher student_id calls).1
        teacher.id student_id = some student ∧
      session_totals (submit_answers db teacher student_id calls).1 student_id c =
        ((session_totals db student_id c).1 + (calls.length : Int),
         (session_totals db student_id c).2 + (correct_count calls : Int)) ∧
      (calls ≠ [] → ∃ b w rid,
        (submit_answers db teacher student_id calls).2.getLast? =
          some (.ok b w rid
            ((session_totals db student_id c).1 + (calls.length : Int))
            ((session_totals db student_id c).2 + (correct_count calls : Int))
            (percentage_of
              ((session_totals db student_id c).1 + (calls.length : Int))
              ((session_totals db student_id c).2 +
                (correct_count calls : Int))))) := by
  intro calls
  induction calls with
  | nil =>
    intro db student hst hwf hids _
    refine ⟨hwf, rfl, hst, ?_, fun h => absurd rfl h⟩
    simp [submit_answers, correct_count]
  | cons p rest ih =>
    intro db student hst hwf hids hvalid
    obtain ⟨vid, sid⟩ := p
    obtain ⟨v, hv, hvid, hteach, hcat⟩ := hvalid (vid, sid) (List.mem_cons_self _ _)
    have hstep := submit_step_totals db teacher student_id student v vid sid
      hst hwf hids hv hvid hteach
    rw [hcat] at hstep
    have htab := submit_preserves_tables db teacher student_id (some vid) (some sid)
    have hst1 : find_student
        (submit_test_answer db teacher student_id (some vid) (some sid)).1
        teacher.id student_id = some student := by
      rw [submit_preserves_find_student]
      exact hst
    have hids1 : ((submit_test_answer db teacher student_id
        (some vid) (some sid)).1.vocabs.map Vocabulary.id).Nodup := by
      rw [htab.1]
      exact hids
    have hvalid1 : ∀ p ∈ rest, ∃ v2 ∈ (submit_test_answer db teacher student_id
        (some vid) (some sid)).1.vocabs, (v2.id : Int) = p.1 ∧
        v2.teacher_id = teacher.id ∧ v2.category_id = c := by
      rw [htab.1]
      exact fun p hp => hvalid p (List.mem_cons_of_mem _ hp)
    have hrec := ih (submit_test_answer db teacher student_id
      (some vid) (some sid)).1 student hst1 hstep.2.2 hids1 hvalid1
    have hunfold : submit_answers db teacher student_id ((vid, sid) :: rest) =
        ((submit_answers (submit_test_answer db teacher student_id
            (some vid) (some sid)).1 teacher student_id rest).1,
         (submit_test_answer db teacher student_id (some vid) (some sid)).2 ::
           (submit_answers (submit_test_answer db teacher student_id
             (some vid) (some sid)).1 teacher student_id rest).2) := rfl
    rw [hunfold]
    have harith1 :
        (session_totals (submit_test_answer db teacher student_id
            (some vid) (some sid)).1 student_id c).1 + (rest.length : Int) =
          (session_totals db student_id c).1 +
            ((((vid, sid) :: rest).length : Nat) : Int) := by
      rw [hstep.1]
      simp only [List.length_cons]
      push_cast
      ring_nf
    have harith2 :
        (session_totals (submit_test_answer db teacher student_id
            (some vid) (some sid)).1 student_id c).2 + (correct_count rest : Int) =
          (session_totals db student_id c).2 +
            ((correct_count ((vid, sid) :: rest) : Nat) : Int) := by
      rw [hstep.1]
      rw [correct_count_cons]
      by_cases h : (vid == sid) = true
      · simp only [h, if_true]
        push_cast
        ring
      · simp only [h, if_false]
        push_cast
        ring
    refine ⟨hrec.1, ?_, hrec.2.2.1, ?_, ?_⟩
    · rw [hrec.2.1, htab.1]
    · rw [hrec.2.2.2.1, hstep.1]
      rw [Prod.mk.injEq]
      constructor
      · rw [← harith1, hstep.1]
      · rw [← harith2, hstep.1]
    · intro hne
      cases hrest : rest with
      | nil =>
        refine ⟨(vid == sid), (if vid == sid then some v.word else none),
          db.nextResultId, ?_⟩
        subst hrest
        rw [show (submit_answers (submit_test_answer db teacher student_id
            (some vid) (some sid)).1 teacher student_id []).2 = [] from rfl]
        rw [hstep.2.1, List.getLast?_singleton]
        by_cases h : (vid == sid) = true
        · simp [h, correct_count]
        · simp [h, correct_count]
      | cons r rs =>
        subst hrest
        obtain ⟨b, w, rid, hlast⟩ := hrec.2.2.2.2 (by simp)
        refine ⟨b, w, rid, ?_⟩
        have hlen : (submit_answers (submit_test_answer db teacher student_id
            (some vid) (some sid)).1 teacher student_id (r :: rs)).2.length =
            (r :: rs).length :=
          submit_answers_length teacher student_id (r :: rs) _
        cases hresp : (submit_answers (submit_test_answer db teacher student_id
            (some vid) (some sid)).1 teacher student_id (r :: rs)).2 with
        | nil =>
          rw [hresp] at hlen
          simp at hlen
        | cons q qs =>
          rw [hresp] at hlast
          rw [List.getLast?_cons_cons, hlast]
          rw [harith1, harith2]

/-- C2: starting with no session stored for the (student, category) pair,
after N submit calls for that pair of which k have vocabId equal to
selectedOptionId, the stored session has total_questions = N and
correct_answers = k, the last response reports those totals together with
the percentage round(100*k/N, 2), and the percentage of a zero-question
session is 0 — for every store with distinct vocabulary primary keys and a
well-formed session table. -/
theorem C2_submit_counters (db : DB) (teacher : User) (student_id c : Nat)
    (student : Student) (calls : List (Int × Int))
    (hst : find_student db teacher.id student_id = some student)
    (hwf : db.sessionsWF)
    (hids : (db.vocabs.map Vocabulary.id).Nodup)
    (hvalid : ∀ p ∈ calls, ∃ v ∈ db.vocabs, (v.id : Int) = p.1 ∧
      v.teacher_id = teacher.id ∧ v.category_id = c)
    (hfresh : find_session db student_id c = none)
    (hne : calls ≠ []) :
    (∃ s, find_session (submit_answers db teacher student_id calls).1
        student_id c = some s ∧
      s.total_questions = (calls.length : Int) ∧
      s.correct_answers = (correct_count calls : Int)) ∧
    (∃ b w rid,
      (submit_answers db teacher student_id calls).2.getLast? =
        some (.ok b w rid (calls.length : Int) (correct_count calls : Int)
          (round2 (100 * (correct_count calls : ℚ) / (calls.length : ℚ))))) ∧
    (∀ k : Int, percentage_of 0 k = 0) := by
  have hspec := submit_answers_spec teacher student_id c calls db student
    hst hwf hids hvalid
  have htot0 : session_totals db student_id c = (0, 0) := by
    unfold session_totals
    rw [hfresh]
  rw [htot0] at hspec
  have htotals := hspec.2.2.2.1
  have hlen0 : calls.length ≠ 0 := fun h => hne (List.length_eq_zero.mp h)
  refine ⟨?_, ?_, ?_⟩
  · cases hfs : find_session (submit_answers db teacher student_id calls).1
        student_id c with
    | none =>
      exfalso
      unfold session_totals at htotals
      rw [hfs] at htotals
      rw [Prod.mk.injEq] at htotals
      have h1 := htotals.1
      simp only [Prod.fst] at h1
      omega
    | some s =>
      refine ⟨s, rfl, ?_, ?_⟩
      · unfold session_totals at htotals
        rw [hfs] at htotals
        rw [Prod.mk.injEq] at htotals
        have h1 := htotals.1
        simpa using h1
      · unfold session_totals at htotals
        rw [hfs] at htotals
        rw [Prod.mk.injEq] at htotals
        have h2 := htotals.2
        simpa using h2
  · obtain ⟨b, w, rid, hlast⟩ := hspec.2.2.2.2 hne
    refine ⟨b, w, rid, ?_⟩
    rw [hlast]
    have e1 : ((0 : Int), (0 : Int)).1 + (calls.length : Int) =
        (calls.length : Int) := by norm_num
    have e2 : ((0 : Int), (0 : Int)).2 + (correct_count calls : Int) =
        (correct_count calls : Int) := by norm_num
    rw [e1, e2]
    have hperc : percentage_of (calls.length : Int) (correct_count calls : Int) =
        round2 (100 * (correct_count calls : ℚ) / (calls.length : ℚ)) := by
      unfold percentage_of
      rw [if_neg (by exact_mod_cast hlen0)]
      have harg : ((correct_count calls : Int) : ℚ) /
          ((calls.length : Int) : ℚ) * 100 =
          100 * (correct_count calls : ℚ) / (calls.length : ℚ) := by
        push_cast
        ring
      rw [harg]
    rw [hperc]
  · intro k
    rfl

/-- Witness for C2 at the concrete store: two submissions (one correct, one
wrong) produce a session with totals (2, 1) and a last response carrying
percentage 50. -/
theorem C2_submit_counters_witness :
    (∃ s, find_session (submit_answers sample_db teacher1 1
        [((1 : Int), (1 : Int)), (2, 3)]).1 1 10 = some s ∧
      s.total_questions = (([((1 : Int), (1 : Int)), (2, 3)].length : Nat) : Int) ∧
      s.correct_answers =
        ((correct_count [((1 : Int), (1 : Int)), (2, 3)] : Nat) : Int)) ∧
    (∃ b w rid,
      (submit_answers sample_db teacher1 1
          [((1 : Int), (1 : Int)), (2, 3)]).2.getLast? =
        some (.ok b w rid
          (([((1 : Int), (1 : Int)), (2, 3)].length : Nat) : Int)
          ((correct_count [((1 : Int), (1 : Int)), (2, 3)] : Nat) : Int)
          (round2 (100 *
            (correct_count [((1 : Int), (1 : Int)), (2, 3)] : ℚ) /
            ([((1 : Int), (1 : Int)), (2, 3)].length : ℚ))))) ∧
    (∀ k : Int, percentage_of 0 k = 0) :=
  C2_submit_counters sample_db teacher1 1 10
    { id := 1, full_name := "S", class_room_id := 1 }
    [((1 : Int), (1 : Int)), (2, 3)]
    (by decide) ⟨List.nodup_nil, fun s hs => absurd hs (List.not_mem_nil s)⟩
    (by decide) (by decide) (by decide) (by decide)

/-- Facts extracted from a successful question: the correct id names a
pool vocabulary owned by the teacher in the requested category, the id is
not yet in the used set of the student, and the student lookup succeeded. -/
theorem question_vid_facts (db : DB) (teacher : User) (student_id category_id : Nat)
    (iC iW jW kS : Nat) (vid : Nat) (w : String) (im : Option String)
    (opts : List (Nat × String))
    (hq : get_random_test_question db teacher student_id (some category_id)
      iC iW jW kS = .question vid w im opts) :
    (∃ v ∈ db.vocabs, v.id = vid ∧ v.teacher_id = teacher.id ∧
      v.category_id = category_id) ∧
    vid ∉ used_vocab_ids db student_id category_id ∧
    ∃ student, find_student db teacher.id student_id = some student := by
  obtain ⟨student, category_id2, correct, w1, w2, hst, hcat, h3, h0, hcor, hs,
    hvid, hw, him, hopts⟩ :=
    question_inv db teacher student_id (some category_id) iC iW jW kS hq
  obtain rfl : category_id = category_id2 := Option.some.inj hcat
  have hsid : student.id = student_id :=
    (find_student_some db teacher.id student_id student hst).2.1
  have hcormem : correct ∈ remaining_vocabularies db teacher.id student.id
      category_id := by
    rw [hcor]
    exact getD_mem _ _ _ (Nat.mod_lt _ h0)
  have h1 := List.mem_filter.mp hcormem
  have h2 := List.mem_filter.mp h1.1
  have hpred := h1.2
  have hpool := h2.2
  simp only [Bool.and_eq_true, beq_iff_eq] at hpool
  refine ⟨⟨correct, h2.1, hvid.symm, hpool.1, hpool.2⟩, ?_, student, hst⟩
  subst hvid
  intro hmem
  rw [Bool.not_eq_eq_eq_not, Bool.not_true] at hpred
  rw [← hsid] at hmem
  have hmem2 : (used_vocab_ids db student.id category_id).contains correct.id =
      true := List.elem_iff.mpr hmem
  rw [hpred] at hmem2
  cases hmem2

/-- A successful submit for an owned vocabulary row writes a Result that
marks the row's id as used for the student in the row's category. -/
theorem submit_marks_used (db : DB) (teacher : User) (student_id : Nat)
    (student : Student) (v : Vocabulary) (vid sid : Int)
    (hst : find_student db teacher.id student_id = some student)
    (hids : (db.vocabs.map Vocabulary.id).Nodup)
    (hv : v ∈ db.vocabs) (hvid : (v.id : Int) = vid)
    (hteach : v.teacher_id = teacher.id) :
    v.id ∈ used_vocab_ids (submit_test_answer db teacher student_id
      (some vid) (some sid)).1 student_id v.category_id := by
  have hsid : student.id = student_id :=
    (find_student_some db teacher.id student_id student hst).2.1
  have hany : (db.vocabs.any fun w => (w.id : Int) == vid) = true := by
    rw [List.any_eq_true]
    exact ⟨v, hv, beq_iff_eq.mpr hvid⟩
  have hfind : db.vocabs.find? (fun w =>
      ((w.id : Int) == vid) && (w.teacher_id == teacher.id)) = some v :=
    find_vocab_eq db.vocabs v vid teacher.id hids hv hvid hteach
  cases hsess : find_session db student.id v.category_id with
  | some sess =>
    rw [submit_eq_found db teacher student_id student vid sid v sess
      hst hany hfind hsess]
    rw [mem_used_vocab_ids]
    have hpred := List.find?_some hsess
    simp only [Bool.and_eq_true, beq_iff_eq] at hpred
    refine ⟨{ id := db.nextResultId, session_id := sess.id,
              vocabulary_id := v.id, is_correct := ((v.id : Int) == sid) },
      List.mem_append_right _ (List.mem_singleton.mpr rfl), rfl, ?_, ?_⟩
    · refine ⟨{ sess with
          total_questions := sess.total_questions + 1,
          correct_answers := sess.correct_answers +
            (if ((v.id : Int) == sid) then 1 else 0) }, ?_, rfl, ?_⟩
      · refine List.mem_map.mpr ⟨sess, List.mem_of_find?_eq_some hsess, ?_⟩
        rw [if_pos (by simp)]
      · rw [hpred.1, hsid]
    · exact ⟨v, hv, rfl, rfl⟩
  | none =>
    rw [submit_eq_created db teacher student_id student vid sid v
      hst hany hfind hsess]
    rw [mem_used_vocab_ids]
    refine ⟨{ id := db.nextResultId, session_id := db.nextSessionId,
              vocabulary_id := v.id, is_correct := ((v.id : Int) == sid) },
      List.mem_append_right _ (List.mem_singleton.mpr rfl), rfl, ?_, ?_⟩
    · refine ⟨{ id := db.nextSessionId, student_id := student.id,
                category_id := v.category_id,
                total_questions := 1,
                correct_answers :=
                  (if ((v.id : Int) == sid) then 1 else 0) }, ?_, rfl, hsid⟩
      refine List.mem_map.mpr ⟨{ id := db.nextSessionId, student_id := student.id,
                                 category_id := v.category_id,
                                 total_questions := 0, correct_answers := 0 },
        List.mem_append_right _ (List.mem_singleton.mpr rfl), ?_⟩
      rw [if_pos (by simp)]
    · exact ⟨v, hv, rfl, rfl⟩

/-- Submitting never removes an id from the student's used set (for the
same student): the Result rows only grow and the updated or created session
keeps its id and student. -/
theorem used_mono_submit (db : DB) (teacher : User) (student_id : Nat)
    (vocab_id selected_option_id : Option Int) (c x : Nat)
    (hx : x ∈ used_vocab_ids db student_id c) :
    x ∈ used_vocab_ids (submit_test_answer db teacher student_id
      vocab_id selected_option_id).1 student_id c := by
  rw [mem_used_vocab_ids] at hx
  obtain ⟨r, hr, hrx, ⟨s0, hs0, hs0id, hs0st⟩, ⟨v0, hv0, hv0id, hv0c⟩⟩ := hx
  rw [mem_used_vocab_ids]
  have htab := submit_preserves_tables db teacher student_id vocab_id
    selected_option_id
  cases hst : find_student db teacher.id student_id with
  | none =>
    rw [submit_no_student db teacher student_id _ _ hst]
    exact ⟨r, hr, hrx, ⟨s0, hs0, hs0id, hs0st⟩, ⟨v0, hv0, hv0id, hv0c⟩⟩
  | some student =>
    have hsid : student.id = student_id :=
      (find_student_some db teacher.id student_id student hst).2.1
    cases vocab_id with
    | none =>
      rw [submit_missing_field db teacher student_id student _ _ hst (Or.inl rfl)]
      exact ⟨r, hr, hrx, ⟨s0, hs0, hs0id, hs0st⟩, ⟨v0, hv0, hv0id, hv0c⟩⟩
    | some vid =>
      cases selected_option_id with
      | none =>
        rw [submit_missing_field db teacher student_id student _ _ hst (Or.inr rfl)]
        exact ⟨r, hr, hrx, ⟨s0, hs0, hs0id, hs0st⟩, ⟨v0, hv0, hv0id, hv0c⟩⟩
      | some sid =>
        by_cases hany : (db.vocabs.any fun v => (v.id : Int) == vid) = true
        · cases hfind : db.vocabs.find? fun v =>
              ((v.id : Int) == vid) && (v.teacher_id == teacher.id) with
          | none =>
            rw [submit_not_owned db teacher student_id student vid sid hst hany hfind]
            exact ⟨r, hr, hrx, ⟨s0, hs0, hs0id, hs0st⟩, ⟨v0, hv0, hv0id, hv0c⟩⟩
          | some vocab =>
            cases hsess : find_session db student.id vocab.category_id with
            | some sess =>
              rw [submit_eq_found db teacher student_id student vid sid vocab sess
                hst hany hfind hsess]
              refine ⟨r, List.mem_append_left _ hr, hrx, ?_, ⟨v0, hv0, hv0id, hv0c⟩⟩
              by_cases hcase : (s0.id == sess.id) = true
              · have hpred := List.find?_some hsess
                simp only [Bool.and_eq_true, beq_iff_eq] at hpred
                refine ⟨{ sess with
                    total_questions := sess.total_questions + 1,
                    correct_answers := sess.correct_answers +
                      (if ((vocab.id : Int) == sid) then 1 else 0) }, ?_, ?_, ?_⟩
                · refine List.mem_map.mpr ⟨s0, hs0, ?_⟩
                  rw [if_pos hcase]
                · show sess.id = r.session_id
                  have := beq_iff_eq.mp hcase
                  omega
                · rw [hpred.1, hsid]
              · refine ⟨s0, ?_, hs0id, hs0st⟩
                refine List.mem_map.mpr ⟨s0, hs0, ?_⟩
                rw [if_neg (by simp [hcase])]
            | none =>
              rw [submit_eq_created db teacher student_id student vid sid vocab
                hst hany hfind hsess]
              refine ⟨r, List.mem_append_left _ hr, hrx, ?_, ⟨v0, hv0, hv0id, hv0c⟩⟩
              by_cases hcase : (s0.id == db.nextSessionId) = true
              · refine ⟨{ id := db.nextSessionId, student_id := student.id,
                          category_id := vocab.category_id,
                          total_questions := 1,
                          correct_answers :=
                            (if ((vocab.id : Int) == sid) then 1 else 0) },
                  ?_, ?_, hsid⟩
                · refine List.mem_map.mpr ⟨s0, List.mem_append_left _ hs0, ?_⟩
                  rw [if_pos hcase]
                · show db.nextSessionId = r.session_id
                  have := beq_iff_eq.mp hcase
                  omega
              · refine ⟨s0, ?_, hs0id, hs0st⟩
                refine List.mem_map.mpr ⟨s0, List.mem_append_left _ hs0, ?_⟩
                rw [if_neg (by simp [hcase])]
        · have hany2 : (db.vocabs.any fun v => (v.id : Int) == vid) = false := by
            simpa using hany
          rw [submit_invalid_vocab db teacher student_id student vid sid hst hany2]
          exact ⟨r, hr, hrx, ⟨s0, hs0, hs0id, hs0st⟩, ⟨v0, hv0, hv0id, hv0c⟩⟩

/-- Every id the alternating driver collects was unseen in the store the
run started from. -/
theorem trace_fresh (teacher : User) (student_id category_id : Nat) :
    ∀ (seeds : List Seed) (db : DB),
      (db.vocabs.map Vocabulary.id).Nodup →
      ∀ x ∈ (select_submit_trace db teacher student_id category_id seeds).2,
        x ∉ used_vocab_ids db student_id category_id := by
  intro seeds
  induction seeds with
  | nil =>
    intro db _ x hx
    cases hx
  | cons seed rest ih =>
    intro db hids
    cases hq : get_random_test_question db teacher student_id (some category_id)
        seed.iC seed.iW seed.jW seed.kS with
    | question vid w im opts =>
      have htr : (select_submit_trace db teacher student_id category_id
          (seed :: rest)).2 = vid ::
          (select_submit_trace (submit_test_answer db teacher student_id
            (some (vid : Int)) (some (vid : Int))).1 teacher student_id
            category_id rest).2 := by
        conv_lhs => unfold select_submit_trace
        rw [hq]
      intro x hx
      rw [htr] at hx
      obtain ⟨hown, hunseen, student, hst⟩ :=
        question_vid_facts db teacher student_id category_id
          seed.iC seed.iW seed.jW seed.kS vid w im opts hq
      rcases List.mem_cons.mp hx with rfl | hx2
      · exact hunseen
      · have hids1 : ((submit_test_answer db teacher student_id
            (some (vid : Int)) (some (vid : Int))).1.vocabs.map
              Vocabulary.id).Nodup := by
          rw [(submit_preserves_tables db teacher student_id _ _).1]
          exact hids
        have hfresh1 := ih (submit_test_answer db teacher student_id
          (some (vid : Int)) (some (vid : Int))).1 hids1 x hx2
        intro hxin
        exact hfresh1 (used_mono_submit db teacher student_id _ _ category_id x hxin)
    | notFound =>
      intro x hx
      rw [show (select_submit_trace db teacher student_id category_id
        (seed :: rest)).2 = [] from by
          conv_lhs => unfold select_submit_trace
          rw [hq]] at hx
      cases hx
    | badRequest msg =>
      intro x hx
      rw [show (select_submit_trace db teacher student_id category_id
        (seed :: rest)).2 = [] from by
          conv_lhs => unfold select_submit_trace
          rw [hq]] at hx
      cases hx
    | insufficientPool =>
      intro x hx
      rw [show (select_submit_trace db teacher student_id category_id
        (seed :: rest)).2 = [] from by
          conv_lhs => unfold select_submit_trace
          rw [hq]] at hx
      cases hx
    | finished =>
      intro x hx
      rw [show (select_submit_trace db teacher student_id category_id
        (seed :: rest)).2 = [] from by
          conv_lhs => unfold select_submit_trace
          rw [hq]] at hx
      cases hx
    | sampleError =>
      intro x hx
      rw [show (select_submit_trace db teacher student_id category_id
        (seed :: rest)).2 = [] from by
          conv_lhs => unfold select_submit_trace
          rw [hq]] at hx
      cases hx

/-- C3: along any alternating run of SelectQuestion and
SubmitAnswer(correct) for one (student, category) pair, the collected
correct vocabulary ids are pairwise distinct — in particular the id of call
n+1 differs from the ids of calls 1..n — for every store with distinct
vocabulary primary keys, all seed sequences, until the pool is exhausted
(the run stops at the first non-question response). -/
theorem C3_no_repeat (db : DB) (teacher : User) (student_id category_id : Nat)
    (seeds : List Seed)
    (hids : (db.vocabs.map Vocabulary.id).Nodup) :
    (select_submit_trace db teacher student_id category_id seeds).2.Nodup := by
  induction seeds generalizing db with
  | nil => exact List.nodup_nil
  | cons seed rest ih =>
    cases hq : get_random_test_question db teacher student_id (some category_id)
        seed.iC seed.iW seed.jW seed.kS with
    | question vid w im opts =>
      have htr : (select_submit_trace db teacher student_id category_id
          (seed :: rest)).2 = vid ::
          (select_submit_trace (submit_test_answer db teacher student_id
            (some (vid : Int)) (some (vid : Int))).1 teacher student_id
            category_id rest).2 := by
        conv_lhs => unfold select_submit_trace
        rw [hq]
      rw [htr, List.nodup_cons]
      obtain ⟨⟨v, hvmem, hvid, hteach, hcat⟩, hunseen, student, hst⟩ :=
        question_vid_facts db teacher student_id category_id
          seed.iC seed.iW seed.jW seed.kS vid w im opts hq
      have hids1 : ((submit_test_answer db teacher student_id
          (some (vid : Int)) (some (vid : Int))).1.vocabs.map
            Vocabulary.id).Nodup := by
        rw [(submit_preserves_tables db teacher student_id _ _).1]
        exact hids
      constructor
      · intro hmem
        have hfresh := trace_fresh teacher student_id category_id rest
          (submit_test_answer db teacher student_id
            (some (vid : Int)) (some (vid : Int))).1 hids1 vid hmem
        apply hfresh
        have hused := submit_marks_used db teacher student_id student v
          ((vid : Int)) ((vid : Int)) hst hids hvmem (by rw [hvid]) hteach
        rw [hcat, hvid] at hused
        exact hused
      · exact ih _ hids1
    | notFound =>
      rw [show (select_submit_trace db teacher student_id category_id
        (seed :: rest)).2 = [] from by
          conv_lhs => unfold select_submit_trace
          rw [hq]]
      exact List.nodup_nil
    | badRequest msg =>
      rw [show (select_submit_trace db teacher student_id category_id
        (seed :: rest)).2 = [] from by
          conv_lhs => unfold select_submit_trace
          rw [hq]]
      exact List.nodup_nil
    | insufficientPool =>
      rw [show (select_submit_trace db teacher student_id category_id
        (seed :: rest)).2 = [] from by
          conv_lhs => unfold select_submit_trace
          rw [hq]]
      exact List.nodup_nil
    | finished =>
      rw [show (select_submit_trace db teacher student_id category_id
        (seed :: rest)).2 = [] from by
          conv_lhs => unfold select_submit_trace
          rw [hq]]
      exact List.nodup_nil
    | sampleError =>
      rw [show (select_submit_trace db teacher student_id category_id
        (seed :: rest)).2 = [] from by
          conv_lhs => unfold select_submit_trace
          rw [hq]]
      exact List.nodup_nil

/-- Witness for C3: a three-round alternating run over the concrete store
collects pairwise distinct correct ids. -/
theorem C3_no_repeat_witness :
    (select_submit_trace sample_db teacher1 1 10
      [({ iC := 0, iW := 0, jW := 0, kS := 0 } : Seed),
       { iC := 0, iW := 0, jW := 0, kS := 0 },
       { iC := 0, iW := 0, jW := 0, kS := 0 }]).2.Nodup :=
  C3_no_repeat sample_db teacher1 1 10
    [{ iC := 0, iW := 0, jW := 0, kS := 0 },
     { iC := 0, iW := 0, jW := 0, kS := 0 },
     { iC := 0, iW := 0, jW := 0, kS := 0 }] (by decide)
